import Mathlib

/-!
Verification development for the zk_server push-protocol synchronization server.

The JavaScript sources are shallowly embedded as executable Lean functions.
Strings are manipulated through their underlying character lists; every
JavaScript string primitive used by the code (split on a one-character
separator, trim, regular-expression field extraction, parseInt, the base64
test) is modelled by a definition below, named after the construct it embeds.

Conventions:
* A JavaScript record object (string keys to string values) is a
  List (String × String); assignment prepends, lookup takes the first match,
  so a later assignment shadows an earlier one, as in JavaScript.
* A possibly-undefined value is an Option String; none is undefined.
* Database state is a World structure; each database-touching function maps
  a World to a new World together with its result.  SQLite CURRENT_TIMESTAMP
  and row insertion order are modelled by a single increasing counter seq,
  which also seeds command-id generation (the source draws ids from uuidv4).
-/

namespace ZK

/-- JavaScript whitespace class (the ASCII part of \s; the code only ever
meets ASCII payloads). -/
def isJsSpace (c : Char) : Bool :=
  c = ' ' || c = '\t' || c = '\n' || c = '\r' || c = '\x0b' || c = '\x0c'

def isAzLetter (c : Char) : Bool :=
  ('A' ≤ c && c ≤ 'Z') || ('a' ≤ c && c ≤ 'z')

def isDigitCh (c : Char) : Bool :=
  '0' ≤ c && c ≤ '9'

/-- str.split(sep) for a one-character separator, on character lists.
JavaScript split keeps empty segments: "a==b".split("=") is ["a","","b"]. -/
def splitCh (sep : Char) : List Char → List (List Char)
  | [] => [[]]
  | x :: xs =>
    if x = sep then [] :: splitCh sep xs
    else
      match splitCh sep xs with
      | [] => [[x]]
      | g :: gs => (x :: g) :: gs

/-- str.split(re) for a character-class regular expression such as /\s+/
combined with the filter(part => part.length > 0) the code always applies:
split at every matching character and drop empty segments. -/
def splitPredNonEmpty (p : Char → Bool) (cs : List Char) : List (List Char) :=
  ((cs.splitOnP p).map id).filter (fun g => g ≠ [])

/-- str.trim() (ASCII whitespace). -/
def jsTrim (s : String) : String :=
  ⟨(s.data.dropWhile isJsSpace).reverse.dropWhile isJsSpace |>.reverse⟩

/-- String-level split on a one-character separator. -/
def jsSplit (sep : Char) (s : String) : List String :=
  (splitCh sep s.data).map (fun l => ⟨l⟩)

/-- p is a prefix of s (String.startsWith, on lists to stay kernel-friendly). -/
def strStartsWith (s p : String) : Bool :=
  p.data.isPrefixOf s.data

/-- substring(n) / drop of n leading characters. -/
def strDrop (s : String) (n : Nat) : String :=
  ⟨s.data.drop n⟩

/-- Number of horizontal tabs in a string. -/
def tabCount (s : String) : Nat :=
  s.data.count '\t'

/-- JavaScript truthiness of a possibly-undefined string: undefined and the
empty string are falsy. -/
def truthy : Option String → Bool
  | none => false
  | some v => v ≠ ""

/-- x || d for a possibly-undefined string x and default d: the default is
used when x is undefined or empty (both falsy). -/
def jsOr (x : Option String) (d : String) : String :=
  match x with
  | none => d
  | some v => if v = "" then d else v

/-- Destructuring default { f = d }: applied only when the field is
undefined; an empty string is kept. -/
def jsDflt (x : Option String) (d : String) : String :=
  x.getD d

/-- String interpolation of a possibly-undefined value: undefined prints as
"undefined". -/
def jsShow (x : Option String) : String :=
  x.getD "undefined"

/-- parseInt(s) || d : parseInt takes an optional sign and the maximal run
of leading decimal digits after optional whitespace; NaN (no digits) and 0
are falsy, so both fall back to the default. -/
def jsParseIntOr (x : Option String) (d : Int) : Int :=
  match x with
  | none => d
  | some s =>
    let cs := s.data.dropWhile isJsSpace
    let sign : Int := if cs.head? = some '-' then -1 else 1
    let cs := if cs.head? = some '-' || cs.head? = some '+' then cs.tail else cs
    let digits := cs.takeWhile isDigitCh
    if digits = [] then d
    else
      let n : Nat := digits.foldl (fun acc c => acc * 10 + (c.toNat - 48)) 0
      if n = 0 then d else sign * n

/-- Decimal rendering of the integer produced by a parseInt expression when
it is concatenated into a command string. -/
def intStr (i : Int) : String :=
  if i < 0 then "-" ++ Nat.repr i.natAbs else Nat.repr i.natAbs

/-- The regular expression test /^[A-Za-z0-9+\/]*={0,2}$/ used by every
template validation in commandManager.js. -/
def isBase64 (s : String) : Bool :=
  let isB64 : Char → Bool := fun c =>
    isAzLetter c || isDigitCh c || c = '+' || c = '/'
  let rest := s.data.dropWhile isB64
  rest.all (fun c => c = '=') && rest.length ≤ 2

/-! ## JavaScript record objects -/

/-- A parsed record: string keys to string values. -/
abbrev KV := List (String × String)

/-- result[key] = value : a later assignment shadows an earlier one. -/
def kvSet (m : KV) (k v : String) : KV := (k, v) :: m

/-- Property read: first (that is, latest) binding, none when absent. -/
def kvGet (m : KV) (k : String) : Option String :=
  (m.find? (fun p => p.1 = k)).map (fun p => p.2)

/-- const [key, value] = part.split('='); the guard key && value !==
undefined of the parsing loops. -/
def kvOfPart (part : String) : Option (String × String) :=
  match splitCh '=' part.data with
  | [] => none
  | k :: rest =>
    match rest.head? with
    | none => none
    | some v => if k = [] then none else some (⟨k⟩, ⟨v⟩)

/-- dataProcessor.parseKeyValueString: tab-separated key=value fields. -/
def parseKeyValueString (str : String) : KV :=
  (jsSplit '\t' str).foldl
    (fun result part =>
      match kvOfPart part with
      | some (k, v) => kvSet result k v
      | none => result)
    []

/-- dataProcessor.parseBiodataRecord: whitespace-separated key=value fields
(BIODATA uploads use spaces; the code trims, splits on runs of whitespace
and drops empty parts). -/
def parseBiodataRecord (record : String) : KV :=
  let parts := (splitPredNonEmpty isJsSpace (jsTrim record).data).map
    (fun l => (⟨l⟩ : String))
  parts.foldl
    (fun fields part =>
      match kvOfPart part with
      | some (k, v) => kvSet fields k v
      | none => fields)
    []

/-- commandManager.parseCommandReply: ampersand-separated key=value pairs. -/
def parseCommandReply (replyData : String) : KV :=
  (jsSplit '&' replyData).foldl
    (fun reply part =>
      match kvOfPart part with
      | some (k, v) => kvSet reply k v
      | none => reply)
    []

/-- dataProcessor.parseDataRecords: split the upload body on line feeds and
drop blank lines. -/
def parseDataRecords (data : String) : List String :=
  (jsSplit '\n' data).filter (fun line => jsTrim line ≠ "")

/-- dataProcessor.parseOperationRecord: dispatch on the record tag.  The
BIODATA branch uses the whitespace parser, every other branch the tab
parser.  An unknown tag yields the UNKNOWN type with no fields (the source
carries the raw string there; no field read ever succeeds on it). -/
def parseOperationRecord (record : String) : String × KV :=
  if strStartsWith record "USER " then ("USER", parseKeyValueString (strDrop record 5))
  else if strStartsWith record "FP " then ("FP", parseKeyValueString (strDrop record 3))
  else if strStartsWith record "FACE " then ("FACE", parseKeyValueString (strDrop record 5))
  else if strStartsWith record "FVEIN " then ("FVEIN", parseKeyValueString (strDrop record 6))
  else if strStartsWith record "USERPIC " then ("USERPIC", parseKeyValueString (strDrop record 8))
  else if strStartsWith record "WORKCODE " then ("WORKCODE", parseKeyValueString (strDrop record 9))
  else if strStartsWith record "SMS " then ("SMS", parseKeyValueString (strDrop record 4))
  else if strStartsWith record "USER_SMS " then ("USER_SMS", parseKeyValueString (strDrop record 9))
  else if strStartsWith record "ERRORLOG " then ("ERRORLOG", parseKeyValueString (strDrop record 9))
  else if strStartsWith record "BIODATA " then ("BIODATA", parseBiodataRecord (strDrop record 8))
  else if strStartsWith record "IDCARD " then ("IDCARD", parseKeyValueString (strDrop record 7))
  else ("UNKNOWN", [])

/-! ## Database state

The SQLite tables the claims touch.  Row insertion order and
CURRENT_TIMESTAMP are modelled by the increasing counter seq (insertions
within one request are totally ordered; the spec and claims rely on that
order).  Store-gateway upserts are kept as an append-only log of (table,
parsed fields) operations: no claim ever reads a stored entity row back, so
the by-primary-key replacement is not observable here.  -/

/-- One row of the commands table (database.js): no retry counter and no
sent_at column exist in this schema. -/
structure CommandRow where
  command_id : String
  device_serial : String
  command_type : String
  command_data : String
  status : String
  result : Option String
  created_at : Nat
deriving Repr, DecidableEq

/-- One row of the sync_log table.  target_device is NULL for ERRORLOG
entries. -/
structure SyncRow where
  source_device : String
  target_device : Option String
  data_type : String
  data_id : String
  action : String
  status : String
deriving Repr, DecidableEq

/-- One upsert recorded against a store table. -/
structure StoreOp where
  table : String
  values : KV
deriving Repr, DecidableEq

/-- One row of the devices table. -/
structure Device where
  serial_number : String
  push_version : String
  language : String
  push_comm_key : Option String
  last_seen : Nat
  firmware_version : String
  ip_address : String
  fingerprint_algorithm : String
  face_algorithm : String
  device_info : String
  created_at : Nat
deriving Repr, DecidableEq

structure World where
  devices : List Device
  device_configs : List (String × String × String)
  commands : List CommandRow
  sync_log : List SyncRow
  store : List StoreOp
  seq : Nat
deriving Repr, DecidableEq

def emptyWorld : World :=
  { devices := [], device_configs := [], commands := [], sync_log := [],
    store := [], seq := 0 }

/-- Result of a commandManager call: { success: true, commandId } or
{ success: false, error }. -/
inductive CmdResult where
  | ok (commandId : String)
  | err (error : String)
deriving Repr, DecidableEq

/-- result && result.success !== false -/
def CmdResult.isOk : CmdResult → Bool
  | .ok _ => true
  | .err _ => false

def hexDigit (n : Nat) : Char :=
  if n < 10 then Char.ofNat (48 + n) else Char.ofNat (87 + n)

/-- uuidv4 with the dashes removed, then substring(0, 16): sixteen
hexadecimal characters drawn from the id source, here the world counter. -/
def genCommandId (seed : Nat) : String :=
  ⟨(List.range 16).map (fun i => hexDigit (seed / 16 ^ (15 - i) % 16))⟩

/-- commandManager.addCommand: insert a pending row with a fresh 16-char
id. -/
def addCommand (w : World) (deviceSerial commandType commandData : String) :
    World × CmdResult :=
  let commandId := genCommandId w.seq
  let row : CommandRow :=
    { command_id := commandId, device_serial := deviceSerial,
      command_type := commandType, command_data := commandData,
      status := "pending", result := none, created_at := w.seq }
  ({ w with commands := w.commands ++ [row], seq := w.seq + 1 },
   CmdResult.ok commandId)

/-! ## Command formatter -/

/-- Arguments of commandManager.addBiodataTemplate after the caller built
them.  pin, type and template may be undefined (they come straight from
parsed record fields); the remaining fields are always strings or numbers
already coerced by the caller expressions modelled at each call site. -/
structure BiodataArgs where
  pin : Option String
  no : String
  index : String
  valid : String
  duress : String
  type : Option String
  majorVer : String
  minorVer : String
  format : String
  template : Option String
deriving Repr, DecidableEq

/-- The exact BIODATA wire payload of addBiodataTemplate (one horizontal
tab between consecutive fields, canonical order). -/
def biodataPayload (t : BiodataArgs) : String :=
  "DATA UPDATE BIODATA Pin=" ++ jsShow t.pin ++ "\tNo=" ++ t.no
    ++ "\tIndex=" ++ t.index ++ "\tValid=" ++ t.valid
    ++ "\tDuress=" ++ t.duress ++ "\tType=" ++ jsShow t.type
    ++ "\tMajorVer=" ++ t.majorVer ++ "\tMinorVer=" ++ t.minorVer
    ++ "\tFormat=" ++ t.format ++ "\tTmp=" ++ jsShow t.template

/-- commandManager.addBiodataTemplate: refuse when pin, type or template is
falsy, when the template is empty, or when the template fails the base64
test; otherwise enqueue the payload as a pending DATA command.  No range
check on no or index and no check that type lies in the 1..9 enumeration is
performed here. -/
def addBiodataTemplate (w : World) (deviceSerial : String) (t : BiodataArgs) :
    World × CmdResult :=
  if ¬ (truthy t.pin && truthy t.type && truthy t.template) then
    (w, CmdResult.err "Missing required fields: pin, type, or template")
  else if ¬ truthy t.template then
    (w, CmdResult.err "Empty template data")
  else if ¬ isBase64 (jsShow t.template) then
    (w, CmdResult.err "Invalid base64 template format")
  else
    addCommand w deviceSerial "DATA" (biodataPayload t)

/-- Arguments of commandManager.addUser; absent fields take the
destructuring defaults inside addUser. -/
structure UserArgs where
  pin : Option String
  name : Option String
  privilege : Option String
  password : Option String
  card : Option String
  groupId : Option String
  timeZone : Option String
  verifyMode : Option String
  viceCard : Option String
deriving Repr, DecidableEq

/-- commandManager.addUser: always enqueues (no validation at all). -/
def addUser (w : World) (deviceSerial : String) (u : UserArgs) :
    World × CmdResult :=
  addCommand w deviceSerial "DATA"
    ("DATA UPDATE USERINFO PIN=" ++ jsShow u.pin ++ "\tName=" ++ jsShow u.name
      ++ "\tPri=" ++ jsDflt u.privilege "0"
      ++ "\tPasswd=" ++ jsDflt u.password ""
      ++ "\tCard=" ++ jsDflt u.card ""
      ++ "\tGrp=" ++ jsDflt u.groupId "1"
      ++ "\tTZ=" ++ jsDflt u.timeZone "0000000000000000"
      ++ "\tVerify=" ++ jsDflt u.verifyMode "-1"
      ++ "\tViceCard=" ++ jsDflt u.viceCard "")

/-- commandManager.addWorkCode. -/
def addWorkCode (w : World) (deviceSerial : String) (pin code nm : Option String) :
    World × CmdResult :=
  addCommand w deviceSerial "DATA"
    ("DATA UPDATE WORKCODE PIN=" ++ jsShow pin ++ "\tCODE=" ++ jsShow code
      ++ "\tNAME=" ++ jsShow nm)

/-- commandManager.addShortMessage. -/
def addShortMessage (w : World) (deviceSerial : String)
    (uid msg tag minDuration startTime : Option String) : World × CmdResult :=
  addCommand w deviceSerial "DATA"
    ("DATA UPDATE SMS MSG=" ++ jsShow msg ++ "\tTAG=" ++ jsShow tag
      ++ "\tUID=" ++ jsShow uid ++ "\tMIN=" ++ jsDflt minDuration "0"
      ++ "\tStartTime=" ++ jsDflt startTime "")

/-- commandManager.addUserSMSAssociation. -/
def addUserSMSAssociation (w : World) (deviceSerial : String)
    (pin uid : Option String) : World × CmdResult :=
  addCommand w deviceSerial "DATA"
    ("DATA UPDATE USER_SMS PIN=" ++ jsShow pin ++ "\tUID=" ++ jsShow uid)

/-- Argument record of commandManager.validateBiometricTemplate (fid is a
number in the management API callers). -/
structure TemplateData where
  pin : Option String
  template : Option String
  fid : Option Int
deriving Repr, DecidableEq

def toLowerStr (s : String) : String :=
  ⟨s.data.map Char.toLower⟩

/-- commandManager.validateBiometricTemplate: the only place where the slot
ranges (fingerprint and finger vein 0..9, face exactly 0) and the
10-character minimum length are enforced.  Returns none when valid, the
error text otherwise.  This function is reached from the management API
paths (addUnifiedBiometricTemplate), never from the upload fan-out. -/
def validateBiometricTemplate (t : TemplateData) (biometricType : String) :
    Option String :=
  if ¬ (truthy t.pin && truthy t.template) then
    some "Missing PIN or template data"
  else if ¬ isBase64 (jsShow t.template) then
    some "Invalid base64 template format"
  else
    let ty := toLowerStr biometricType
    let fidBad : Option String :=
      if ty = "fingerprint" then
        match t.fid with
        | some f => if f < 0 ∨ 9 < f then some "Fingerprint FID must be between 0-9" else none
        | none => none
      else if ty = "face" then
        match t.fid with
        | some f => if f ≠ 0 then some "Face FID should be 0" else none
        | none => none
      else if ty = "fingervein" then
        match t.fid with
        | some f => if f < 0 ∨ 9 < f then some "Finger vein FID must be between 0-9" else none
        | none => none
      else none
    match fidBad with
    | some e => some e
    | none =>
      if (jsShow t.template).data.length < 10 then some "Template data too short"
      else none

/-! ## Tab validation and repair (commandManager.validateAndFixTabs and
validateBiodataCommand) -/

/-- Array.join(sep) / the join used by the source. -/
def joinSep (sep : String) : List String → String
  | [] => ""
  | [x] => x
  | x :: y :: xs => x ++ sep ++ joinSep sep (y :: xs)

/-- The prefixes whose parameters must be tab separated. -/
def tabCommands : List String :=
  ["DATA UPDATE BIODATA", "DATA UPDATE USERPIC", "DATA UPDATE BIOPHOTO",
   "DATA UPDATE WORKCODE", "DATA UPDATE FVEIN", "DATA UPDATE SMS",
   "DATA UPDATE USER_SMS", "DATA UPDATE IDCARD", "DATA DELETE FINGERTMP",
   "DATA QUERY FINGERTMP", "ENROLL_FP", "ENROLL_BIO", "ENROLL_MF",
   "VERIFY SUM ATTLOG", "DATA QUERY ATTLOG", "DATA QUERY ATTPHOTO",
   "PutFile"]

def isNameChar (c : Char) : Bool := isAzLetter c || c = '_'

/-- The global replacement of a whitespace run directly followed by a
key= by a single tab (the character-class version of the repair regex);
fuel is the string length, enough for the left-to-right scan. -/
def fixWsTabs : Nat → List Char → List Char
  | 0, cs => cs
  | _ + 1, [] => []
  | fuel + 1, c :: cs =>
    if isJsSpace c then
      let rest := (c :: cs).dropWhile isJsSpace
      let nm := rest.takeWhile isNameChar
      let rest2 := rest.drop nm.length
      if nm ≠ [] && rest2.head? = some '=' then
        '\t' :: nm ++ '=' :: fixWsTabs fuel rest2.tail
      else c :: fixWsTabs fuel cs
    else c :: fixWsTabs fuel cs

/-- Case-insensitive match of a pattern at the head of a string, returning
the remainder after the pattern. -/
def ciPrefixRest : List Char → List Char → Option (List Char)
  | [], s => some s
  | _ :: _, [] => none
  | p :: ps, c :: cs => if p.toLower = c.toLower then ciPrefixRest ps cs else none

/-- The remainders after every case-insensitive occurrence of a pattern,
left to right (the candidate positions a regular-expression engine tries in
order). -/
def ciOccurrences (pat : List Char) : List Char → List (List Char)
  | [] => match ciPrefixRest pat [] with
          | some r => [r]
          | none => []
  | c :: cs =>
    match ciPrefixRest pat (c :: cs) with
    | some rest => rest :: ciOccurrences pat cs
    | none => ciOccurrences pat cs

/-- The first branch of extractParamImproved: the case-insensitive pattern
name=([^\s\t]+) — the first occurrence of name= followed by at least one
non-whitespace character; the capture is the maximal non-whitespace run. -/
def extractPrimary (nm : String) (str : List Char) : Option String :=
  (ciOccurrences (nm.data ++ ['=']) str).findSome? (fun rest =>
    let v := rest.takeWhile (fun c => ¬ isJsSpace c)
    if v = [] then none else some ⟨v⟩)

/-- The second branch of extractParamImproved: the case-insensitive pattern
name=([^A-Za-z_=]+)(?=[A-Za-z_]+=|$) for concatenated parameters.  At each
occurrence the capture is the maximal run outside [A-Za-z_=]; it succeeds
when the run is non-empty and followed by the end of the string or by a
letter/underscore run ending in =.  (Backtracking cannot shorten the run:
any shorter cut is followed by a run character, on which both lookahead
alternatives fail.) -/
def extractFallback (nm : String) (str : List Char) : Option String :=
  (ciOccurrences (nm.data ++ ['=']) str).findSome? (fun rest =>
    let r := rest.takeWhile (fun c => ¬ (isAzLetter c || c = '_' || c = '='))
    if r = [] then none
    else
      let after := rest.drop r.length
      match after with
      | [] => some ⟨r⟩
      | _ =>
        let l := after.takeWhile isNameChar
        if l ≠ [] && (after.drop l.length).head? = some '=' then some ⟨r⟩
        else none)

/-- commandManager.extractParamImproved: try the plain pattern first, then
the concatenated-parameters pattern. -/
def extractParamImproved (nm : String) (str : List Char) : Option String :=
  match extractPrimary nm str with
  | some v => some v
  | none => extractFallback nm str

/-- commandManager.extractTmp: the greedy case-insensitive Tmp=(.*)$ —
the first occurrence of Tmp= whose remainder reaches the end of the string
without a line terminator; the capture is that whole remainder. -/
def extractTmp (str : List Char) : Option String :=
  (ciOccurrences "Tmp=".data str).findSome? (fun rest =>
    if rest.all (fun c => c ≠ '\n' && c ≠ '\r') then some ⟨rest⟩ else none)

/-- The ten BIODATA parameters in canonical emission order, paired with
their extraction results. -/
def biodataParams (paramsString : List Char) : List (String × Option String) :=
  [("Pin", extractParamImproved "Pin" paramsString),
   ("No", extractParamImproved "No" paramsString),
   ("Index", extractParamImproved "Index" paramsString),
   ("Valid", extractParamImproved "Valid" paramsString),
   ("Duress", extractParamImproved "Duress" paramsString),
   ("Type", extractParamImproved "Type" paramsString),
   ("MajorVer", extractParamImproved "MajorVer" paramsString),
   ("MinorVer", extractParamImproved "MinorVer" paramsString),
   ("Format", extractParamImproved "Format" paramsString),
   ("Tmp", extractTmp paramsString)]

/-- The fields present after extraction, as name=value strings. -/
def biodataFields (paramsString : List Char) : List (String × String) :=
  (biodataParams paramsString).filterMap (fun p => p.2.map (fun v => (p.1, v)))

/-- commandManager.validateBiodataCommand: re-extract the ten named fields
from the parameter section and re-emit the present ones joined by single
tabs in canonical order.  The rebuilt command is always returned. -/
def validateBiodataCommand (commandData : String) : String :=
  if ¬ strStartsWith commandData "DATA UPDATE BIODATA " then commandData
  else
    let paramsString := (strDrop commandData 20).data
    let rebuiltParams :=
      joinSep "\t" ((biodataFields paramsString).map (fun f => f.1 ++ "=" ++ f.2))
    "DATA UPDATE BIODATA " ++ rebuiltParams

/-- commandManager.validateAndFixTabs: BIODATA commands go through the
named-field rebuild; the other tab-requiring commands have whitespace runs
before key= rewritten to single tabs; everything else passes through. -/
def validateAndFixTabs (commandData : String) : String :=
  if ¬ tabCommands.any (fun cmd => strStartsWith commandData cmd) then
    commandData
  else
    let parts := jsSplit ' ' commandData
    if parts.length < 2 then commandData
    else if strStartsWith commandData "DATA UPDATE BIODATA" then
      validateBiodataCommand commandData
    else
      let part2 := (parts.drop 2).head?
      let hasP2 := truthy part2
      let cmdHead := parts.headD "" ++ " " ++ (parts.drop 1).headD ""
        ++ (if hasP2 then " " ++ jsShow part2 else "")
      let remainingParts := parts.drop (if hasP2 then 3 else 2)
      if remainingParts ≠ [] then
        let parametersString := joinSep " " remainingParts
        if parametersString.data.contains '=' then
          cmdHead ++ " "
            ++ ⟨fixWsTabs (parametersString.data.length + 1) parametersString.data⟩
        else commandData
      else commandData

/-! ## Command queue -/

/-- ORDER BY created_at ASC LIMIT 1 over an already filtered row list. -/
def selectOldest (rows : List CommandRow) : Option CommandRow :=
  rows.foldl
    (fun acc r =>
      match acc with
      | none => some r
      | some m => if r.created_at < m.created_at then some r else some m)
    none

/-- commandManager.formatCommand: C:(id):(repaired payload). -/
def formatCommand (command : CommandRow) : String :=
  "C:" ++ command.command_id ++ ":" ++ validateAndFixTabs command.command_data

/-- commandManager.getNextCommand: select the oldest pending row of the
device, mark that row sent (update keyed on command_id), and return the
formatted wire line; none when the queue is empty. -/
def getNextCommand (w : World) (deviceSerial : String) :
    World × Option String :=
  let pending := w.commands.filter
    (fun c => c.device_serial = deviceSerial && c.status = "pending")
  match selectOldest pending with
  | none => (w, none)
  | some command =>
    ({ w with commands := w.commands.map (fun c =>
        if c.command_id = command.command_id then { c with status := "sent" }
        else c) },
     some (formatCommand command))

/-- commandManager.processCommandReply: when the reply carries a truthy ID,
set every row matching (command_id, device_serial) to completed and store
the full reply body as its result — for every Return code; the Return value
only feeds logging (handleCommandResult inspects it and writes console
output, mutating nothing). -/
def processCommandReply (w : World) (deviceSerial replyData : String) : World :=
  let reply := parseCommandReply replyData
  match kvGet reply "ID" with
  | some id =>
    if id ≠ "" then
      { w with commands := w.commands.map (fun c =>
          if c.command_id = id ∧ c.device_serial = deviceSerial then
            { c with status := "completed", result := some replyData }
          else c) }
    else w
  | none => w

/-- One row of the device_commands table of the legacy handler
implementation (migrate.js): this schema does carry sent_at and
retry_count. -/
structure LegacyCmdRow where
  command_id : String
  device_serial : String
  command_type : String
  command_data : String
  status : String
  retry_count : Nat
  sent_at : Option Nat
  completed_at : Option Nat
  created_at : Nat
deriving Repr, DecidableEq

/-- commandHandlers.markCommandCompleted (legacy implementation): rows are
matched by command_id alone; Return 0 completes, anything else fails, then
the retry counter increments while below 3 and the row returns to pending
with sent_at cleared while the incremented counter is still below 3.  The
payload text is never consulted and no result is stored. -/
def markCommandCompleted (rows : List LegacyCmdRow)
    (commandId returnCode : String) (now : Nat) : List LegacyCmdRow :=
  let status := if returnCode = "0" then "completed" else "failed"
  let rows := rows.map (fun r =>
    if r.command_id = commandId then
      { r with status := status, completed_at := some now }
    else r)
  if status = "failed" then
    let rows := rows.map (fun r =>
      if r.command_id = commandId ∧ r.retry_count < 3 then
        { r with retry_count := r.retry_count + 1 }
      else r)
    rows.map (fun r =>
      if r.command_id = commandId ∧ r.retry_count < 3 then
        { r with status := "pending", sent_at := none }
      else r)
  else rows

/-! ## Terminal registry (deviceManager.js) -/

/-- The seventeen default configuration rows of initializeDeviceConfig. -/
def defaultConfigs : List (String × String) :=
  [("errorDelay", "30"), ("delay", "10"), ("transTimes", "00:00;12:00"),
   ("transInterval", "1"), ("timeZone", "8"), ("realtime", "1"),
   ("operlogStamp", "None"), ("biodataStamp", "None"),
   ("idcardStamp", "None"), ("errorlogStamp", "None"),
   ("multiBioDataSupport", "0:1:1:0:0:0:0:1:1:1"),
   ("multiBioPhotoSupport", "0:1:1:0:0:0:0:1:1:1"),
   ("FingerFunOn", "1"), ("FaceFunOn", "1"), ("BioPhotoFun", "1"),
   ("BioDataFun", "1"), ("VisilightFun", "1")]

/-- deviceManager.updateDeviceConfig: INSERT OR REPLACE keyed on
(device, key).  Modelled as an append; getDeviceConfig lets the latest row
for a key win, which is exactly what the replacement makes observable. -/
def updateDeviceConfig (w : World) (serialNumber configKey configValue : String) :
    World :=
  { w with device_configs :=
      w.device_configs ++ [(serialNumber, configKey, configValue)] }

/-- deviceManager.initializeDeviceConfig. -/
def initializeDeviceConfig (w : World) (serialNumber : String) : World :=
  defaultConfigs.foldl
    (fun w kv => updateDeviceConfig w serialNumber kv.1 kv.2) w

/-- deviceManager.getDeviceConfig: fold the rows of the device into an
object; a later row overwrites an earlier binding of the same key. -/
def getDeviceConfig (w : World) (serialNumber : String) : KV :=
  (w.device_configs.filter (fun c => c.1 = serialNumber)).foldl
    (fun configObject c => kvSet configObject c.2.1 c.2.2) []

structure RegisterInfo where
  serialNumber : String
  pushVersion : String
  language : String
  pushCommKey : Option String
  lastSeen : Nat
deriving Repr, DecidableEq

/-- deviceManager.registerDevice: update the existing row (including
last_seen) when the serial is known, otherwise insert it and install the
default configuration. -/
def registerDevice (w : World) (info : RegisterInfo) : World :=
  if w.devices.any (fun d => d.serial_number = info.serialNumber) then
    { w with devices := w.devices.map (fun d =>
        if d.serial_number = info.serialNumber then
          { d with push_version := info.pushVersion,
                   language := info.language,
                   push_comm_key := info.pushCommKey,
                   last_seen := info.lastSeen }
        else d) }
  else
    let w :=
      { w with
        devices := w.devices ++
          [{ serial_number := info.serialNumber,
             push_version := info.pushVersion, language := info.language,
             push_comm_key := info.pushCommKey, last_seen := info.lastSeen,
             firmware_version := "", ip_address := "",
             fingerprint_algorithm := "", face_algorithm := "",
             device_info := "", created_at := w.seq }],
        seq := w.seq + 1 }
    initializeDeviceConfig w info.serialNumber

/-- deviceManager.updateLastSeen: exists in the source but is never invoked
by any protocol endpoint. -/
def updateLastSeen (w : World) (serialNumber : String) (now : Nat) : World :=
  { w with devices := w.devices.map (fun d =>
      if d.serial_number = serialNumber then { d with last_seen := now }
      else d) }

/-- deviceManager.updateDeviceInfo: when the INFO csv has at least five
fields, update firmware, ip, algorithm versions and the raw info string;
last_seen is not touched. -/
def updateDeviceInfo (w : World) (serialNumber infoString : String) : World :=
  let infoParts := jsSplit ',' infoString
  if 5 ≤ infoParts.length then
    { w with devices := w.devices.map (fun d =>
        if d.serial_number = serialNumber then
          { d with firmware_version := infoParts.headD "",
                   ip_address := (infoParts.drop 4).headD "",
                   fingerprint_algorithm := (infoParts.drop 5).headD "",
                   face_algorithm := (infoParts.drop 6).headD "",
                   device_info := infoString }
        else d) }
  else w

/-- deviceManager.getAllDevices: ORDER BY created_at DESC (latest
registration first). -/
def getAllDevices (w : World) : List Device :=
  w.devices.reverse

/-- deviceManager.getActiveDevices: the function computes a time threshold
from the minutes window (default 10), but its SQL is SELECT * FROM devices
with no WHERE clause, so every registered device is returned no matter how
old its last_seen is.  The parameter is therefore dead. -/
def getActiveDevices (w : World) (minutesThreshold : Nat) : List Device :=
  w.devices

/-! ## Fan-out synchronizer (dataProcessor.js, current version) -/

/-- a || b over two possibly undefined strings (the result may still be
undefined when both are falsy and b is undefined). -/
def jsOrOpt (a b : Option String) : Option String :=
  if truthy a then a else b

/-- The per-record command construction of
dataProcessor.createSyncCommands: translate the parsed record to the
outbound command of the target device.  FP, FACE and FVEIN records are
rewritten to unified BIODATA (types 1, 2, 7); BIODATA carries through with
Format defaulting to 0 when absent; USERPIC and BIOPHOTO are refused;
USER, WORKCODE, SMS and USER_SMS use their native formatters; every other
type (including IDCARD and ERRORLOG) leaves the default success result and
enqueues nothing. -/
def syncRecordCommand (w : World) (targetDevice ty : String) (m : KV) :
    World × CmdResult :=
  if ty = "USER" then
    addUser w targetDevice
      { pin := kvGet m "PIN", name := kvGet m "Name",
        privilege := kvGet m "Pri", password := kvGet m "Passwd",
        card := kvGet m "Card", groupId := kvGet m "Grp",
        timeZone := kvGet m "TZ", verifyMode := kvGet m "Verify",
        viceCard := kvGet m "ViceCard" }
  else if ty = "FP" then
    addBiodataTemplate w targetDevice
      { pin := kvGet m "PIN", no := intStr (jsParseIntOr (kvGet m "FID") 0),
        index := "0", valid := intStr (jsParseIntOr (kvGet m "Valid") 1),
        duress := "0", type := some "1", majorVer := "0", minorVer := "0",
        format := "ZK", template := kvGet m "TMP" }
  else if ty = "FACE" then
    addBiodataTemplate w targetDevice
      { pin := kvGet m "PIN", no := intStr (jsParseIntOr (kvGet m "FID") 0),
        index := "0",
        valid := intStr (jsParseIntOr (jsOrOpt (kvGet m "VALID") (kvGet m "Valid")) 1),
        duress := "0", type := some "2", majorVer := "0", minorVer := "0",
        format := "ZK", template := kvGet m "TMP" }
  else if ty = "BIODATA" then
    if truthy (kvGet m "Tmp") then
      addBiodataTemplate w targetDevice
        { pin := kvGet m "Pin", no := jsOr (kvGet m "No") "0",
          index := jsOr (kvGet m "Index") "0",
          valid := jsOr (kvGet m "Valid") "1",
          duress := jsOr (kvGet m "Duress") "0", type := kvGet m "Type",
          majorVer := jsOr (kvGet m "MajorVer") "0",
          minorVer := jsOr (kvGet m "MinorVer") "0",
          format := jsOr (kvGet m "Format") "0", template := kvGet m "Tmp" }
    else (w, CmdResult.err "Empty template data")
  else if ty = "FVEIN" then
    addBiodataTemplate w targetDevice
      { pin := kvGet m "Pin", no := intStr (jsParseIntOr (kvGet m "FID") 0),
        index := intStr (jsParseIntOr (kvGet m "Index") 0),
        valid := intStr (jsParseIntOr (kvGet m "Valid") 1),
        duress := "0", type := some "7", majorVer := "0", minorVer := "0",
        format := "ZK", template := kvGet m "Tmp" }
  else if ty = "USERPIC" then
    (w, CmdResult.err "USERPIC sync disabled - biometric data only")
  else if ty = "BIOPHOTO" then
    (w, CmdResult.err "BIOPHOTO sync disabled - biometric data only")
  else if ty = "WORKCODE" then
    addWorkCode w targetDevice (kvGet m "PIN") (kvGet m "CODE") (kvGet m "NAME")
  else if ty = "SMS" then
    addShortMessage w targetDevice (kvGet m "UID") (kvGet m "MSG")
      (kvGet m "TAG") (kvGet m "MIN") (kvGet m "StartTime")
  else if ty = "USER_SMS" then
    addUserSMSAssociation w targetDevice (kvGet m "PIN") (kvGet m "UID")
  else (w, CmdResult.ok "")

/-- dataProcessor.createSyncCommands: for each record, build the outbound
command and append one sync_log row whose status is queued on success and
skipped on refusal.  The dataType argument is only logged. -/
def createSyncCommands (w : World)
    (targetDevice sourceDevice dataType : String) (records : List String) :
    World :=
  records.foldl
    (fun w record =>
      let parsed := parseOperationRecord record
      let wr := syncRecordCommand w targetDevice parsed.1 parsed.2
      let dataId := jsOr (kvGet parsed.2 "PIN")
        (jsOr (kvGet parsed.2 "Pin") (jsOr (kvGet parsed.2 "IDNum") "unknown"))
      { wr.1 with sync_log := wr.1.sync_log ++
          [{ source_device := sourceDevice, target_device := some targetDevice,
             data_type := parsed.1, data_id := dataId, action := "sync",
             status := if wr.2.isOk then "queued" else "skipped" }] })
    w

/-- dataProcessor.syncDataToOtherDevices: every registered device other
than the source — getAllDevices, not getActiveDevices — receives the sync
commands. -/
def syncDataToOtherDevices (w : World) (sourceDevice dataType : String)
    (records : List String) : World :=
  let otherDevices := (getAllDevices w).filter
    (fun device => device.serial_number ≠ sourceDevice)
  otherDevices.foldl
    (fun w device =>
      createSyncCommands w device.serial_number sourceDevice dataType records)
    w

/-- dataProcessor.syncBiodataToOtherDevices (invoked from inside
processBioTemplate): enqueue one BIODATA command per registered device
other than the source, with Format defaulting to ZK when the upload omitted
it. -/
def syncBiodataToOtherDevices (w : World) (sourceDevice : String)
    (biodataFieldsMap : KV) : World :=
  let otherDevices := (getAllDevices w).filter
    (fun device => device.serial_number ≠ sourceDevice)
  otherDevices.foldl
    (fun w device =>
      (addBiodataTemplate w device.serial_number
        { pin := kvGet biodataFieldsMap "Pin",
          no := jsOr (kvGet biodataFieldsMap "No") "0",
          index := jsOr (kvGet biodataFieldsMap "Index") "0",
          valid := jsOr (kvGet biodataFieldsMap "Valid") "1",
          duress := jsOr (kvGet biodataFieldsMap "Duress") "0",
          type := kvGet biodataFieldsMap "Type",
          majorVer := jsOr (kvGet biodataFieldsMap "MajorVer") "0",
          minorVer := jsOr (kvGet biodataFieldsMap "MinorVer") "0",
          format := jsOr (kvGet biodataFieldsMap "Format") "ZK",
          template := kvGet biodataFieldsMap "Tmp" }).1)
    w

/-! ## Ingest pipeline (dataProcessor.js, current version) -/

/-- dataProcessor.processBioTemplate: parse the whitespace-separated BIODATA
record, reject it when Pin or Type is falsy, store it, then immediately
fan it out through syncBiodataToOtherDevices. -/
def processBioTemplate (w : World) (serialNumber record : String) :
    World × Bool :=
  let biodataContent := strDrop record 8
  let templateData := parseBiodataRecord biodataContent
  if ¬ (truthy (kvGet templateData "Pin") && truthy (kvGet templateData "Type"))
  then (w, false)
  else
    let w := { w with store := w.store ++
      [{ table := "bio_templates", values := templateData }] }
    let w := syncBiodataToOtherDevices w serialNumber templateData
    (w, true)

/-- dataProcessor.processUserInfo. -/
def processUserInfo (w : World) (serialNumber : String) (userData : KV) :
    World × Bool :=
  if ¬ truthy (kvGet userData "PIN") then (w, false)
  else ({ w with store := w.store ++ [{ table := "users", values := userData }] },
        true)

/-- dataProcessor.processFingerprintTemplate (store only; no fan-out from
here). -/
def processFingerprintTemplate (w : World) (serialNumber : String)
    (templateData : KV) : World × Bool :=
  if ¬ (truthy (kvGet templateData "PIN") && (kvGet templateData "FID").isSome)
  then (w, false)
  else ({ w with store := w.store ++
          [{ table := "fingerprint_templates", values := templateData }] },
        true)

/-- dataProcessor.processFaceTemplate. -/
def processFaceTemplate (w : World) (serialNumber : String)
    (templateData : KV) : World × Bool :=
  if ¬ (truthy (kvGet templateData "PIN") && (kvGet templateData "FID").isSome)
  then (w, false)
  else ({ w with store := w.store ++
          [{ table := "face_templates", values := templateData }] },
        true)

/-- dataProcessor.processFingerVeinTemplate. -/
def processFingerVeinTemplate (w : World) (serialNumber record : String) :
    World × Bool :=
  let templateData := parseKeyValueString (strDrop record 6)
  if ¬ (truthy (kvGet templateData "Pin") && (kvGet templateData "FID").isSome
        && (kvGet templateData "Index").isSome)
  then (w, false)
  else ({ w with store := w.store ++
          [{ table := "finger_vein_templates", values := templateData }] },
        true)

/-- dataProcessor.processUserPhoto. -/
def processUserPhoto (w : World) (serialNumber : String) (photoData : KV) :
    World × Bool :=
  if ¬ truthy (kvGet photoData "PIN") then (w, false)
  else ({ w with store := w.store ++
          [{ table := "user_photos", values := photoData }] },
        true)

/-- dataProcessor.processIdCardInfo. -/
def processIdCardInfo (w : World) (serialNumber record : String) :
    World × Bool :=
  let cardData := parseKeyValueString (strDrop record 7)
  if ¬ truthy (kvGet cardData "IDNum") then (w, false)
  else ({ w with store := w.store ++
          [{ table := "id_cards", values := cardData }] },
        true)

/-- dataProcessor.processWorkCodeInfo. -/
def processWorkCodeInfo (w : World) (serialNumber record : String) :
    World × Bool :=
  let workData := parseKeyValueString (strDrop record 9)
  if ¬ (truthy (kvGet workData "PIN") && truthy (kvGet workData "CODE"))
  then (w, false)
  else ({ w with store := w.store ++
          [{ table := "work_codes", values := workData }] },
        true)

/-- dataProcessor.processShortMessageInfo. -/
def processShortMessageInfo (w : World) (serialNumber record : String) :
    World × Bool :=
  let msgData := parseKeyValueString (strDrop record 4)
  if ¬ (truthy (kvGet msgData "UID") && truthy (kvGet msgData "MSG")
        && truthy (kvGet msgData "TAG"))
  then (w, false)
  else ({ w with store := w.store ++
          [{ table := "short_messages", values := msgData }] },
        true)

/-- dataProcessor.processUserSMSInfo. -/
def processUserSMSInfo (w : World) (serialNumber record : String) :
    World × Bool :=
  let userData := parseKeyValueString (strDrop record 9)
  if ¬ (truthy (kvGet userData "PIN") && truthy (kvGet userData "UID"))
  then (w, false)
  else ({ w with store := w.store ++
          [{ table := "user_sms", values := userData }] },
        true)

/-- dataProcessor.processErrorLogInfo: append the sync_log row with action
origin:message and status logged; nothing else happens. -/
def processErrorLogInfo (w : World) (serialNumber record : String) :
    World × Bool :=
  let errorData := parseKeyValueString (strDrop record 9)
  if ¬ truthy (kvGet errorData "ErrCode") then (w, false)
  else
    ({ w with sync_log := w.sync_log ++
        [{ source_device := serialNumber, target_device := none,
           data_type := "ERRORLOG",
           data_id := jsShow (kvGet errorData "ErrCode"),
           action := jsOr (kvGet errorData "DataOrigin") "unknown" ++ ":"
             ++ jsOr (kvGet errorData "ErrMsg") "no message",
           status := "logged" }] },
     true)

/-- dataProcessor.processOperationRecord: dispatch a parsed record to its
store routine (BIODATA records also fan out from inside
processBioTemplate). -/
def processOperationRecord (w : World) (serialNumber record : String) :
    World × Bool :=
  let parsed := parseOperationRecord record
  if parsed.1 = "USER" then processUserInfo w serialNumber parsed.2
  else if parsed.1 = "FP" then processFingerprintTemplate w serialNumber parsed.2
  else if parsed.1 = "FACE" then processFaceTemplate w serialNumber parsed.2
  else if parsed.1 = "FVEIN" then processFingerVeinTemplate w serialNumber record
  else if parsed.1 = "USERPIC" then processUserPhoto w serialNumber parsed.2
  else if parsed.1 = "BIODATA" then processBioTemplate w serialNumber record
  else if parsed.1 = "IDCARD" then processIdCardInfo w serialNumber record
  else if parsed.1 = "WORKCODE" then processWorkCodeInfo w serialNumber record
  else if parsed.1 = "SMS" then processShortMessageInfo w serialNumber record
  else if parsed.1 = "USER_SMS" then processUserSMSInfo w serialNumber record
  else if parsed.1 = "ERRORLOG" then processErrorLogInfo w serialNumber record
  else (w, true)

/-- dataProcessor.processOperationLog: store every record, then hand the
whole record list to the fan-out. -/
def processOperationLog (w : World) (serialNumber data stamp : String) :
    World × Nat :=
  let records := parseDataRecords data
  let acc := records.foldl
    (fun acc record =>
      let wr := processOperationRecord acc.1 serialNumber record
      (wr.1, if wr.2 then acc.2 + 1 else acc.2))
    (w, 0)
  let w := syncDataToOtherDevices acc.1 serialNumber "OPERLOG" records
  (w, acc.2)

/-- dataProcessor.processBioData: each record goes through
processBioTemplate (which already fans out), then the same record list is
handed to syncDataToOtherDevices a second time. -/
def processBioData (w : World) (serialNumber data stamp : String) :
    World × Nat :=
  let records := parseDataRecords data
  let acc := records.foldl
    (fun acc record =>
      let wr := processBioTemplate acc.1 serialNumber record
      (wr.1, if wr.2 then acc.2 + 1 else acc.2))
    (w, 0)
  let w := syncDataToOtherDevices acc.1 serialNumber "BIODATA" records
  (w, acc.2)

/-! ## Protocol endpoints (server.js) -/

/-- server.buildInitializationResponse: the option block, one KEY=VALUE per
line, lines joined by a single line feed. -/
def buildInitializationResponse (serialNumber : String) (config : KV) :
    String :=
  joinSep "\n"
    ["GET OPTION FROM: " ++ serialNumber,
     "ATTLOGStamp=None",
     "OPERLOGStamp=" ++ jsOr (kvGet config "operlogStamp") "None",
     "ATTPHOTOStamp=None",
     "BIODATAStamp=" ++ jsOr (kvGet config "biodataStamp") "None",
     "IDCARDStamp=" ++ jsOr (kvGet config "idcardStamp") "None",
     "ERRORLOGStamp=" ++ jsOr (kvGet config "errorlogStamp") "None",
     "ErrorDelay=" ++ jsOr (kvGet config "errorDelay") "30",
     "Delay=" ++ jsOr (kvGet config "delay") "10",
     "TransTimes=" ++ jsOr (kvGet config "transTimes") "00:00;12:00",
     "TransInterval=" ++ jsOr (kvGet config "transInterval") "1",
     "TransFlag=TransData EnrollUser ChgUser EnrollFP ChgFP FACE UserPic BioPhoto WORKCODE FVEIN",
     "TimeZone=" ++ jsOr (kvGet config "timeZone") "8",
     "Realtime=" ++ jsOr (kvGet config "realtime") "1",
     "Encrypt=None",
     "ServerVer=2.4.1",
     "PushProtVer=2.4.1",
     "PushOptionsFlag=1",
     "PushOptions=FingerFunOn,FaceFunOn,MultiBioDataSupport,MultiBioPhotoSupport,BioPhotoFun,BioDataFun,VisilightFun",
     "MultiBioDataSupport=" ++ jsOr (kvGet config "multiBioDataSupport") "0:1:1:0:0:0:0:1:1:1",
     "MultiBioPhotoSupport=" ++ jsOr (kvGet config "multiBioPhotoSupport") "0:1:1:0:0:0:0:1:1:1",
     "ATTPHOTOBase64=1"]

/-- server.handleInitialization for the plain init exchange (the
table=RemoteAtt special case serves stored user data and registers nothing;
no claim touches it, so it is not modelled).  Registers or updates the
terminal — this is the only endpoint that writes last_seen — and answers
with the option block. -/
def handleInitialization (w : World)
    (sn pushver language pushcommkey : Option String) (now : Nat) :
    World × String :=
  match sn with
  | none => (w, "Missing serial number")
  | some s =>
    if s = "" then (w, "Missing serial number")
    else
      let w := registerDevice w
        { serialNumber := s, pushVersion := jsOr pushver "2.2.14",
          language := jsOr language "69", pushCommKey := pushcommkey,
          lastSeen := now }
      let config := getDeviceConfig w s
      (w, buildInitializationResponse s config)

/-- server.handleCommandRequest: update device info when INFO is given
(never last_seen), then either send the next command line or plain OK. -/
def handleCommandRequest (w : World) (sn info : Option String) :
    World × String :=
  match sn with
  | none => (w, "Missing serial number")
  | some s =>
    if s = "" then (w, "Missing serial number")
    else
      let w := match info with
               | some i => if i ≠ "" then updateDeviceInfo w s i else w
               | none => w
      let wc := getNextCommand w s
      (wc.1, (wc.2).getD "OK")

/-- server.handleCommandReply: reconcile the reply, answer OK. -/
def handleCommandReply (w : World) (sn : Option String) (data : String) :
    World × String :=
  match sn with
  | none => (w, "Missing serial number")
  | some s =>
    if s = "" then (w, "Missing serial number")
    else (processCommandReply w s data, "OK")

/-- server.handleHeartbeat: the handler only logs and answers OK — it makes
no database call at all, so last_seen stays what it was. -/
def handleHeartbeat (w : World) (sn : Option String) : World × String :=
  match sn with
  | none => (w, "Missing serial number")
  | some s =>
    if s = "" then (w, "Missing serial number")
    else (w, "OK")

/-! ## Concrete fixtures -/

/-- Two registered terminals: A01 seen at time 1000, A02 last seen at time
0 (far outside every activity window once the clock has advanced). -/
def wA01A02 : World :=
  registerDevice
    (registerDevice emptyWorld
      { serialNumber := "A01", pushVersion := "2.4.1", language := "69",
        pushCommKey := none, lastSeen := 1000 })
    { serialNumber := "A02", pushVersion := "2.4.1", language := "69",
      pushCommKey := none, lastSeen := 0 }

/-- The registry row of terminal A02 inside wA01A02. -/
def devA02 : Device :=
  { serial_number := "A02", push_version := "2.4.1", language := "69",
    push_comm_key := none, last_seen := 0, firmware_version := "",
    ip_address := "", fingerprint_algorithm := "", face_algorithm := "",
    device_info := "", created_at := 1 }

/-- The USER record of scenario S2. -/
def userRecS2 : String :=
  "USER PIN=1001\tName=Alice\tPri=0\tPasswd=\tCard=\tGrp=1\tTZ=0000000000000000\tVerify=-1\tViceCard="

/-- A command row in state sent on terminal A02. -/
def replyRow : CommandRow :=
  { command_id := "cafe012345678901", device_serial := "A02",
    command_type := "DATA",
    command_data := "DATA UPDATE BIODATA Pin=1001\tNo=3\tIndex=0\tValid=1\tDuress=0\tType=1\tMajorVer=0\tMinorVer=0\tFormat=ZK\tTmp=AAAA",
    status := "sent", result := none, created_at := 0 }

/-- A world holding one command in state sent on terminal A02. -/
def wReply : World :=
  { emptyWorld with commands := [replyRow], seq := 1 }

/-! ## Supporting lemmas -/

theorem isPrefixOf_append_self (l t : List Char) :
    l.isPrefixOf (l ++ t) = true := by
  induction l with
  | nil => simp [List.isPrefixOf]
  | cons a as ih => simpa [List.isPrefixOf] using ih

theorem strStartsWith_append (p t : String) :
    strStartsWith (p ++ t) p = true := by
  simpa [strStartsWith, String.data_append] using
    isPrefixOf_append_self p.data t.data

theorem strDrop_append (p t : String) :
    strDrop (p ++ t) p.data.length = t := by
  simp [strDrop, String.data_append]

/-- splitCh never produces the empty list of groups. -/
theorem splitCh_ne_nil (sep : Char) (l : List Char) : splitCh sep l ≠ [] := by
  cases l with
  | nil => simp [splitCh]
  | cons x xs =>
    simp only [splitCh]
    split
    · simp
    · split <;> simp

theorem splitCh_cons_eq (sep : Char) (xs : List Char) :
    splitCh sep (sep :: xs) = [] :: splitCh sep xs := by
  simp [splitCh]

theorem splitCh_cons_ne (sep x : Char) (xs : List Char) (h : x ≠ sep) :
    splitCh sep (x :: xs)
      = (x :: (splitCh sep xs).headD []) :: (splitCh sep xs).tail := by
  simp only [splitCh, if_neg h]
  rcases hs : splitCh sep xs with _ | ⟨g, gs⟩
  · exact absurd hs (splitCh_ne_nil sep xs)
  · rfl

/-- A separator-free list splits into a single group. -/
theorem splitCh_no_sep (sep : Char) (l : List Char)
    (h : ∀ x ∈ l, x ≠ sep) : splitCh sep l = [l] := by
  induction l with
  | nil => rfl
  | cons x xs ih =>
    have hx : x ≠ sep := h x (List.mem_cons_self x xs)
    have ihx := ih (fun y hy => h y (List.mem_cons_of_mem x hy))
    rw [splitCh_cons_ne sep x xs hx, ihx]
    rfl

/-- Splitting a list that begins with a separator-free chunk followed by the
separator peels off that chunk. -/
theorem splitCh_append_sep (sep : Char) (xs ys : List Char)
    (h : ∀ x ∈ xs, x ≠ sep) :
    splitCh sep (xs ++ sep :: ys) = xs :: splitCh sep ys := by
  induction xs with
  | nil => simpa using splitCh_cons_eq sep ys
  | cons a as ih =>
    have ha : a ≠ sep := h a (List.mem_cons_self a as)
    have ihx := ih (fun y hy => h y (List.mem_cons_of_mem a hy))
    rw [List.cons_append, splitCh_cons_ne sep a (as ++ sep :: ys) ha, ihx]
    rfl

theorem joinSep_cons (sep x : String) (y : String) (xs : List String) :
    joinSep sep (x :: y :: xs) = x ++ sep ++ joinSep sep (y :: xs) := rfl

theorem tabCount_append (a b : String) :
    tabCount (a ++ b) = tabCount a + tabCount b := by
  simp [tabCount, String.data_append]

/-- Joining tab-free pieces with tabs yields one separator fewer than the
number of pieces. -/
theorem tabCount_joinSep_tab (l : List String)
    (h : ∀ s ∈ l, s.data.count '\t' = 0) :
    tabCount (joinSep "\t" l) = l.length - 1 := by
  induction l with
  | nil => rfl
  | cons x xs ih =>
    cases xs with
    | nil =>
      simpa [joinSep, tabCount] using h x (by simp)
    | cons y ys =>
      have hx : x.data.count '\t' = 0 := h x (by simp)
      have ihx := ih (fun s hs => h s (List.mem_cons_of_mem x hs))
      rw [joinSep_cons, tabCount_append, tabCount_append, ihx]
      simp only [tabCount, hx, List.length_cons]
      have h1 : List.count '\t' ['\t'] = 1 := by decide
      omega

/-- Names of present fields form a sublist of the declared names. -/
theorem filterMap_present_sublist (l : List (String × Option String)) :
    ((l.filterMap (fun p => p.2.map (fun v => (p.1, v)))).map Prod.fst).Sublist
      (l.map Prod.fst) := by
  induction l with
  | nil => simp
  | cons p ps ih =>
    cases hp : p.2 with
    | none =>
      simp only [List.filterMap_cons, hp, Option.map_none', List.map_cons]
      exact ih.cons _
    | some v =>
      simp only [List.filterMap_cons, hp, Option.map_some', List.map_cons]
      exact ih.cons₂ _

/-- Filtering commands of one device and projecting out the payload equals
projecting first and filtering the pairs. -/
theorem filter_device_map_data (cmds : List CommandRow) (s : String) :
    ((cmds.filter (fun c => c.device_serial = s)).map
        (fun c => c.command_data))
      = (cmds.map (fun c => (c.device_serial, c.command_data))).filterMap
          (fun p => if p.1 = s then some p.2 else none) := by
  induction cmds with
  | nil => rfl
  | cons c cs ih =>
    by_cases hc : c.device_serial = s
    · simp [List.filter_cons, hc, List.filterMap_cons, ih]
    · simp [List.filter_cons, hc, List.filterMap_cons, ih]

theorem countP_filter_device (cmds : List CommandRow) (s : String) :
    (cmds.filter (fun c => c.device_serial = s)).length
      = cmds.countP (fun c => c.device_serial = s) := by
  induction cmds with
  | nil => rfl
  | cons c cs ih =>
    by_cases hc : c.device_serial = s <;>
      simp [List.filter_cons, List.countP_cons, hc, ih]

/-- List.splitOnP of a list free of matching characters is one group. -/
theorem splitOnP_no_sep (p : Char → Bool) (l : List Char)
    (h : ∀ x ∈ l, p x = false) : l.splitOnP p = [l] := by
  induction l with
  | nil => simp [List.splitOnP_nil]
  | cons x xs ih =>
    rw [List.splitOnP_cons, if_neg (by simp [h x (List.mem_cons_self x xs)]),
        ih (fun y hy => h y (List.mem_cons_of_mem x hy))]
    rfl

/-- List.splitOnP peels off a match-free chunk followed by a matching
character. -/
theorem splitOnP_append_sep (p : Char → Bool) (xs ys : List Char) (c : Char)
    (h : ∀ x ∈ xs, p x = false) (hc : p c = true) :
    (xs ++ c :: ys).splitOnP p = xs :: ys.splitOnP p := by
  induction xs with
  | nil => simp [List.splitOnP_cons, hc]
  | cons a as ih =>
    rw [List.cons_append, List.splitOnP_cons,
        if_neg (by simp [h a (List.mem_cons_self a as)]),
        ih (fun y hy => h y (List.mem_cons_of_mem a hy))]
    rfl

/-- str.trim() is the identity when neither end of the string is
whitespace. -/
theorem jsTrim_eq_self (s : String)
    (hh : ∀ b, s.data.head? = some b → isJsSpace b = false)
    (hl : ∀ b, s.data.reverse.head? = some b → isJsSpace b = false) :
    jsTrim s = s := by
  have key : ∀ (l : List Char), (∀ b, l.head? = some b → isJsSpace b = false) →
      l.dropWhile isJsSpace = l := by
    intro l hb
    cases l with
    | nil => rfl
    | cons x xs => rw [List.dropWhile_cons, if_neg (by simp [hb x rfl])]
  show (⟨((s.data.dropWhile isJsSpace).reverse.dropWhile isJsSpace).reverse⟩ : String) = s
  rw [key s.data hh, key s.data.reverse hl, List.reverse_reverse]

/-- const [key, value] = part.split('=') on a chunk key=value whose key and
value are both free of '=' recovers exactly that key and value. -/
theorem kvOfPart_exact (k t : String) (hk : ∀ x ∈ k.data, x ≠ '=')
    (hkne : k.data ≠ []) (ht : ∀ x ∈ t.data, x ≠ '=') :
    kvOfPart ⟨k.data ++ '=' :: t.data⟩ = some (k, t) := by
  unfold kvOfPart
  rw [show (⟨k.data ++ '=' :: t.data⟩ : String).data = k.data ++ '=' :: t.data from rfl,
      splitCh_append_sep '=' k.data t.data hk, splitCh_no_sep '=' t.data ht]
  simp [List.head?, hkne]

/-- A second '=' inside the value is dropped together with everything after
it: split('=') cuts at every '=' and the destructuring keeps only the first
two fragments. -/
theorem kvOfPart_truncates (k t u : String) (hk : ∀ x ∈ k.data, x ≠ '=')
    (hkne : k.data ≠ []) (ht : ∀ x ∈ t.data, x ≠ '=') :
    kvOfPart ⟨k.data ++ '=' :: (t.data ++ '=' :: u.data)⟩ = some (k, t) := by
  unfold kvOfPart
  rw [show (⟨k.data ++ '=' :: (t.data ++ '=' :: u.data)⟩ : String).data
        = k.data ++ '=' :: (t.data ++ '=' :: u.data) from rfl,
      splitCh_append_sep '=' k.data _ hk,
      splitCh_append_sep '=' t.data u.data ht]
  simp [List.head?, hkne]

/-- addBiodataTemplate with truthy pin, type and template and a base64
template is exactly an addCommand of the canonical payload. -/
theorem addBiodataTemplate_accepts (w : World) (dev : String)
    (args : BiodataArgs)
    (h1 : (truthy args.pin && truthy args.type && truthy args.template) = true)
    (h3 : isBase64 (jsShow args.template) = true) :
    addBiodataTemplate w dev args = addCommand w dev "DATA" (biodataPayload args) := by
  have h2 : truthy args.template = true := by
    simp only [Bool.and_eq_true] at h1
    exact h1.2
  unfold addBiodataTemplate
  rw [if_neg (by simp [h1]), if_neg (by simp [h2]), if_neg (by simp [h3])]

/-- syncRecordCommand on an FP record always takes the fingerprint branch:
it forwards the parsed fields to addBiodataTemplate with slot No taken from
FID, Type fixed to 1 and Format fixed to ZK. -/
theorem syncRecordCommand_fp (w : World) (target : String) (m : KV) :
    syncRecordCommand w target "FP" m = addBiodataTemplate w target
      { pin := kvGet m "PIN", no := intStr (jsParseIntOr (kvGet m "FID") 0),
        index := "0", valid := intStr (jsParseIntOr (kvGet m "Valid") 1),
        duress := "0", type := some "1", majorVer := "0", minorVer := "0",
        format := "ZK", template := kvGet m "TMP" } := rfl

/-- A prefix of a prefix is a prefix: startsWith is monotone in the
pattern. -/
theorem strStartsWith_weaken (s p q : String)
    (hpq : p.data.isPrefixOf q.data = true)
    (h : strStartsWith s q = true) : strStartsWith s p = true := by
  unfold strStartsWith at h ⊢
  rw [List.isPrefixOf_iff_prefix] at hpq h ⊢
  exact hpq.trans h

/-- When every extraction is present, the field list keeps all entries. -/
theorem filterMap_present_length (l : List (String × Option String))
    (h : ∀ p ∈ l, p.2.isSome = true) :
    (l.filterMap (fun p => p.2.map (fun v => (p.1, v)))).length = l.length := by
  induction l with
  | nil => rfl
  | cons p ps ih =>
    cases hp : p.2 with
    | none => exact absurd (h p (List.mem_cons_self p ps)) (by simp [hp])
    | some v =>
      simp only [List.filterMap_cons, hp, Option.map_some', List.length_cons]
      rw [ih (fun q hq => h q (List.mem_cons_of_mem p hq))]

/-- The names of the present BIODATA fields form a sublist of the canonical
emission order. -/
theorem biodataFields_names_sublist (ps : List Char) :
    ((biodataFields ps).map Prod.fst).Sublist
      ["Pin", "No", "Index", "Valid", "Duress", "Type", "MajorVer",
       "MinorVer", "Format", "Tmp"] :=
  filterMap_present_sublist (biodataParams ps)

/-- The fan-out enqueue accepts exactly when pin, type and template are
truthy and the template passes the base64 test - nothing else is checked
on this path. -/
theorem addBiodataTemplate_isOk (w : World) (dev : String) (args : BiodataArgs) :
    (addBiodataTemplate w dev args).2.isOk
      = ((truthy args.pin && truthy args.type && truthy args.template)
         && isBase64 (jsShow args.template)) := by
  unfold addBiodataTemplate
  by_cases h1 : (truthy args.pin && truthy args.type && truthy args.template) = true
  · have h2 : truthy args.template = true := by
      simp only [Bool.and_eq_true] at h1
      exact h1.2
    rw [if_neg (by simp [h1]), if_neg (by simp [h2])]
    by_cases h3 : isBase64 (jsShow args.template) = true
    · rw [if_neg (by simp [h3])]
      unfold addCommand
      simp [CmdResult.isOk, h1, h3]
    · rw [if_pos h3]
      have h3f : isBase64 (jsShow args.template) = false := Bool.eq_false_iff.mpr h3
      simp [CmdResult.isOk, h3f]
  · rw [if_pos h1]
    have h1f : (truthy args.pin && truthy args.type && truthy args.template) = false :=
      Bool.eq_false_iff.mpr h1
    simp [CmdResult.isOk, h1f]

/-- A refused fan-out enqueue leaves the world untouched. -/
theorem addBiodataTemplate_refused (w : World) (dev : String) (args : BiodataArgs)
    (h : (addBiodataTemplate w dev args).2.isOk = false) :
    (addBiodataTemplate w dev args).1 = w := by
  unfold addBiodataTemplate at h ⊢
  by_cases h1 : (truthy args.pin && truthy args.type && truthy args.template) = true
  · have h2 : truthy args.template = true := by
      simp only [Bool.and_eq_true] at h1
      exact h1.2
    rw [if_neg (by simp [h1]), if_neg (by simp [h2])] at h ⊢
    by_cases h3 : isBase64 (jsShow args.template) = true
    · rw [if_neg (by simp [h3])] at h
      unfold addCommand at h
      simp [CmdResult.isOk] at h
    · rw [if_pos h3]
  · rw [if_pos h1]

/-- The if-chain of syncRecordCommand lands in the BIODATA branch. -/
theorem syncRecordCommand_biodata (w : World) (target : String) (m : KV) :
    syncRecordCommand w target "BIODATA" m
      = if truthy (kvGet m "Tmp") then
          addBiodataTemplate w target
            { pin := kvGet m "Pin", no := jsOr (kvGet m "No") "0",
              index := jsOr (kvGet m "Index") "0",
              valid := jsOr (kvGet m "Valid") "1",
              duress := jsOr (kvGet m "Duress") "0", type := kvGet m "Type",
              majorVer := jsOr (kvGet m "MajorVer") "0",
              minorVer := jsOr (kvGet m "MinorVer") "0",
              format := jsOr (kvGet m "Format") "0", template := kvGet m "Tmp" }
        else (w, CmdResult.err "Empty template data") := rfl

/-- Folding a devices-preserving step preserves the devices table. -/
theorem foldl_devices_invariant {α : Type} (f : World → α → World)
    (hf : ∀ w a, (f w a).devices = w.devices) :
    ∀ (l : List α) (w : World), (l.foldl f w).devices = w.devices := by
  intro l
  induction l with
  | nil => intro w; rfl
  | cons a as ih =>
    intro w
    rw [List.foldl_cons, ih, hf]

/-- Folding a devices-preserving counting step preserves the devices
table. -/
theorem foldl_count_devices_invariant {α : Type} (f : World → α → World × Bool)
    (hf : ∀ w a, (f w a).1.devices = w.devices) :
    ∀ (l : List α) (acc : World × Nat),
      (l.foldl
        (fun acc a => ((f acc.1 a).1,
          if (f acc.1 a).2 then acc.2 + 1 else acc.2)) acc).1.devices
        = acc.1.devices := by
  intro l
  induction l with
  | nil => intro acc; rfl
  | cons a as ih =>
    intro acc
    rw [List.foldl_cons, ih]
    exact hf _ _

theorem addBiodataTemplate_devices (w : World) (dev : String)
    (args : BiodataArgs) : (addBiodataTemplate w dev args).1.devices = w.devices := by
  unfold addBiodataTemplate
  repeat' split
  all_goals rfl

theorem syncRecordCommand_devices (w : World) (target ty : String) (m : KV) :
    (syncRecordCommand w target ty m).1.devices = w.devices := by
  unfold syncRecordCommand
  repeat' split
  all_goals first
    | rfl
    | exact addBiodataTemplate_devices _ _ _

theorem createSyncCommands_devices (w : World)
    (target src dt : String) (records : List String) :
    (createSyncCommands w target src dt records).devices = w.devices := by
  unfold createSyncCommands
  apply foldl_devices_invariant
  intro w r
  exact syncRecordCommand_devices w target _ _

theorem syncDataToOtherDevices_devices (w : World)
    (src dt : String) (records : List String) :
    (syncDataToOtherDevices w src dt records).devices = w.devices := by
  unfold syncDataToOtherDevices
  apply foldl_devices_invariant
  intro w d
  exact createSyncCommands_devices w d.serial_number src dt records

theorem syncBiodataToOtherDevices_devices (w : World)
    (src : String) (m : KV) :
    (syncBiodataToOtherDevices w src m).devices = w.devices := by
  unfold syncBiodataToOtherDevices
  apply foldl_devices_invariant
  intro w d
  exact addBiodataTemplate_devices w d.serial_number _

theorem processBioTemplate_devices (w : World) (s record : String) :
    (processBioTemplate w s record).1.devices = w.devices := by
  simp only [processBioTemplate]
  split
  · rfl
  · show (syncBiodataToOtherDevices
        { w with store := w.store ++
          [{ table := "bio_templates",
             values := parseBiodataRecord (strDrop record 8) }] }
        s (parseBiodataRecord (strDrop record 8))).devices = w.devices
    rw [syncBiodataToOtherDevices_devices]

theorem processOperationRecord_devices (w : World) (s record : String) :
    (processOperationRecord w s record).1.devices = w.devices := by
  unfold processOperationRecord
  by_cases h1 : (parseOperationRecord record).1 = "USER"
  case pos => rw [if_pos h1]; unfold processUserInfo; split <;> rfl
  rw [if_neg h1]
  by_cases h2 : (parseOperationRecord record).1 = "FP"
  case pos => rw [if_pos h2]; unfold processFingerprintTemplate; split <;> rfl
  rw [if_neg h2]
  by_cases h3 : (parseOperationRecord record).1 = "FACE"
  case pos => rw [if_pos h3]; unfold processFaceTemplate; split <;> rfl
  rw [if_neg h3]
  by_cases h4 : (parseOperationRecord record).1 = "FVEIN"
  case pos =>
    rw [if_pos h4]; simp only [processFingerVeinTemplate]; split <;> rfl
  rw [if_neg h4]
  by_cases h5 : (parseOperationRecord record).1 = "USERPIC"
  case pos => rw [if_pos h5]; unfold processUserPhoto; split <;> rfl
  rw [if_neg h5]
  by_cases h6 : (parseOperationRecord record).1 = "BIODATA"
  case pos => rw [if_pos h6]; exact processBioTemplate_devices _ _ _
  rw [if_neg h6]
  by_cases h7 : (parseOperationRecord record).1 = "IDCARD"
  case pos => rw [if_pos h7]; simp only [processIdCardInfo]; split <;> rfl
  rw [if_neg h7]
  by_cases h8 : (parseOperationRecord record).1 = "WORKCODE"
  case pos => rw [if_pos h8]; simp only [processWorkCodeInfo]; split <;> rfl
  rw [if_neg h8]
  by_cases h9 : (parseOperationRecord record).1 = "SMS"
  case pos =>
    rw [if_pos h9]; simp only [processShortMessageInfo]; split <;> rfl
  rw [if_neg h9]
  by_cases h10 : (parseOperationRecord record).1 = "USER_SMS"
  case pos => rw [if_pos h10]; simp only [processUserSMSInfo]; split <;> rfl
  rw [if_neg h10]
  by_cases h11 : (parseOperationRecord record).1 = "ERRORLOG"
  case pos => rw [if_pos h11]; simp only [processErrorLogInfo]; split <;> rfl
  rw [if_neg h11]

theorem processOperationLog_devices (w : World) (s data stamp : String) :
    (processOperationLog w s data stamp).1.devices = w.devices := by
  unfold processOperationLog
  simp only [syncDataToOtherDevices_devices]
  exact foldl_count_devices_invariant
    (fun w r => processOperationRecord w s r)
    (fun w r => processOperationRecord_devices w s r)
    (parseDataRecords data) (w, 0)

theorem processBioData_devices (w : World) (s data stamp : String) :
    (processBioData w s data stamp).1.devices = w.devices := by
  unfold processBioData
  simp only [syncDataToOtherDevices_devices]
  exact foldl_count_devices_invariant
    (fun w r => processBioTemplate w s r)
    (fun w r => processBioTemplate_devices w s r)
    (parseDataRecords data) (w, 0)

theorem getNextCommand_devices (w : World) (s : String) :
    (getNextCommand w s).1.devices = w.devices := by
  simp only [getNextCommand]
  repeat' split
  all_goals rfl

theorem processCommandReply_devices (w : World) (s data : String) :
    (processCommandReply w s data).devices = w.devices := by
  simp only [processCommandReply]
  repeat' split
  all_goals rfl

theorem updateDeviceInfo_lastSeen (w : World) (s i : String) :
    (updateDeviceInfo w s i).devices.map (fun d => (d.serial_number, d.last_seen))
      = w.devices.map (fun d => (d.serial_number, d.last_seen)) := by
  simp only [updateDeviceInfo]
  split
  · show (w.devices.map _).map _ = _
    rw [List.map_map]
    apply List.map_congr_left
    intro d _
    by_cases h : d.serial_number = s
    · simp [h]
    · simp [h]
  · rfl

theorem initializeDeviceConfig_devices (w : World) (s : String) :
    (initializeDeviceConfig w s).devices = w.devices := by
  unfold initializeDeviceConfig
  apply foldl_devices_invariant
  intro w kv
  rfl

/-- registerDevice leaves a row carrying the given serial with last_seen
equal to the given clock value. -/
theorem registerDevice_lastSeen (w : World) (info : RegisterInfo) :
    ∃ d ∈ (registerDevice w info).devices,
      d.serial_number = info.serialNumber ∧ d.last_seen = info.lastSeen := by
  simp only [registerDevice]
  split
  case isTrue h =>
    obtain ⟨d0, hd0, hs0⟩ := List.any_eq_true.mp h
    have hs0h : d0.serial_number = info.serialNumber := of_decide_eq_true hs0
    refine ⟨_, List.mem_map_of_mem _ hd0, ?_⟩
    simp [hs0h]
  case isFalse h =>
    rw [initializeDeviceConfig_devices]
    exact ⟨_, List.mem_append_right _ (List.mem_singleton_self _), rfl, rfl⟩

/-- selectOldest of a list extended on the right folds one more step. -/
theorem selectOldest_concat (cs : List CommandRow) (c : CommandRow) :
    selectOldest (cs ++ [c])
      = match selectOldest cs with
        | none => some c
        | some m => if c.created_at < m.created_at then some c else some m := by
  unfold selectOldest
  rw [List.foldl_append]
  rfl

/-- selectOldest of a nonempty list is never none. -/
theorem selectOldest_ne_none (cs : List CommandRow) (c : CommandRow) :
    selectOldest (cs ++ [c]) ≠ none := by
  rw [selectOldest_concat]
  cases hcs : selectOldest cs with
  | none => simp
  | some m =>
    dsimp only
    split <;> simp

/-- The row selectOldest returns belongs to the list and minimises
created_at over it. -/
theorem selectOldest_min (rows : List CommandRow) :
    ∀ r, selectOldest rows = some r →
      r ∈ rows ∧ ∀ c ∈ rows, r.created_at ≤ c.created_at := by
  induction rows using List.reverseRecOn with
  | nil => intro r h; exact Option.noConfusion h
  | append_singleton cs c ih =>
    intro r h
    rw [selectOldest_concat] at h
    cases hcs : selectOldest cs with
    | none =>
      rw [hcs] at h
      have hr : c = r := Option.some.inj h
      subst hr
      rcases cs.eq_nil_or_concat with rfl | ⟨ds, d, rfl⟩
      · refine ⟨by simp, ?_⟩
        intro x hx
        simp at hx
        subst hx
        exact Nat.le_refl _
      · rw [List.concat_eq_append] at hcs
        exact absurd hcs (selectOldest_ne_none ds d)
    | some m =>
      rw [hcs] at h
      obtain ⟨hmem, hmin⟩ := ih m hcs
      have h2 : (if c.created_at < m.created_at then some c else some m) = some r := h
      by_cases hlt : c.created_at < m.created_at
      · rw [if_pos hlt] at h2
        have hr : c = r := Option.some.inj h2
        subst hr
        refine ⟨List.mem_append_right _ (List.mem_singleton_self _), ?_⟩
        intro x hx
        rcases List.mem_append.mp hx with hx | hx
        · exact Nat.le_of_lt (Nat.lt_of_lt_of_le hlt (hmin x hx))
        · simp at hx
          subst hx
          exact Nat.le_refl _
      · rw [if_neg hlt] at h2
        have hr : m = r := Option.some.inj h2
        subst hr
        refine ⟨List.mem_append_left _ hmem, ?_⟩
        intro x hx
        rcases List.mem_append.mp hx with hx | hx
        · exact hmin x hx
        · simp at hx
          subst hx
          exact Nat.le_of_not_lt hlt

/-- In a duplicate-free list, the element present occurs exactly once. -/
theorem countP_eq_one_of_nodup (ls : List String) (rid : String)
    (hnd : ls.Nodup) (hm : rid ∈ ls) :
    ls.countP (fun x => x = rid) = 1 := by
  induction ls with
  | nil => cases hm
  | cons a as ih =>
    rw [List.countP_cons]
    rcases List.mem_cons.mp hm with rfl | hm2
    · have hnotin : rid ∉ as := (List.nodup_cons.mp hnd).1
      have h0 : as.countP (fun x => x = rid) = 0 :=
        List.countP_eq_zero.mpr (fun x hx => by
          simp only [decide_eq_true_eq]
          rintro rfl
          exact hnotin hx)
      simp [h0]
    · have hne : a ≠ rid := by
        rintro rfl
        exact (List.nodup_cons.mp hnd).1 hm2
      rw [ih (List.nodup_cons.mp hnd).2 hm2]
      simp [hne]

/-- initializeDeviceConfig appends exactly the seventeen default rows of
the device. -/
theorem initializeDeviceConfig_configs (w : World) (s : String) :
    (initializeDeviceConfig w s).device_configs
      = w.device_configs ++ defaultConfigs.map (fun kv => (s, kv.1, kv.2)) := by
  unfold initializeDeviceConfig
  have key : ∀ (l : List (String × String)) (w : World),
      (l.foldl (fun w kv => updateDeviceConfig w s kv.1 kv.2) w).device_configs
        = w.device_configs ++ l.map (fun kv => (s, kv.1, kv.2)) := by
    intro l
    induction l with
    | nil => intro w; simp
    | cons kv kvs ih =>
      intro w
      rw [List.foldl_cons, ih]
      simp [updateDeviceConfig, List.append_assoc]
  exact key defaultConfigs w

/-- Registering an already known serial rewrites its row in place: the
registry keeps its length and its per-serial row counts. -/
theorem registerDevice_update (w : World) (info : RegisterInfo)
    (hany : w.devices.any (fun d => d.serial_number = info.serialNumber) = true) :
    (registerDevice w info).devices.length = w.devices.length
    ∧ ∀ s2, (registerDevice w info).devices.countP
        (fun d => d.serial_number = s2)
        = w.devices.countP (fun d => d.serial_number = s2) := by
  simp only [registerDevice]
  rw [if_pos hany]
  refine ⟨List.length_map _ _, ?_⟩
  intro s2
  rw [List.countP_map]
  apply List.countP_congr
  intro d hd
  by_cases h : d.serial_number = info.serialNumber <;> simp [h]

/-- In the two-terminal fixture, the BIODATA-specific fan-out invoked from
processBioTemplate enqueues on the single peer A02 exactly one command
whose payload defaults Format to ZK. -/
theorem syncBiodata_single_peer (w : World) (m : KV)
    (hdev : w.devices = wA01A02.devices)
    (hpin : truthy (kvGet m "Pin") = true)
    (htype : truthy (kvGet m "Type") = true)
    (htmp : truthy (kvGet m "Tmp") = true)
    (hb64 : isBase64 (jsShow (kvGet m "Tmp")) = true) :
    (syncBiodataToOtherDevices w "A01" m).commands.map
        (fun c => (c.device_serial, c.command_data))
      = w.commands.map (fun c => (c.device_serial, c.command_data))
        ++ [("A02", biodataPayload
              { pin := kvGet m "Pin", no := jsOr (kvGet m "No") "0",
                index := jsOr (kvGet m "Index") "0",
                valid := jsOr (kvGet m "Valid") "1",
                duress := jsOr (kvGet m "Duress") "0",
                type := kvGet m "Type",
                majorVer := jsOr (kvGet m "MajorVer") "0",
                minorVer := jsOr (kvGet m "MinorVer") "0",
                format := jsOr (kvGet m "Format") "ZK",
                template := kvGet m "Tmp" })] := by
  unfold syncBiodataToOtherDevices
  rw [show (getAllDevices w).filter (fun device => device.serial_number ≠ "A01")
        = [devA02] from by
      unfold getAllDevices
      rw [hdev]
      decide]
  simp only [List.foldl_cons, List.foldl_nil]
  rw [addBiodataTemplate_accepts _ _ _ (by rw [hpin, htype, htmp]; rfl) hb64]
  unfold addCommand
  simp [List.map_append, devA02]

/-- In the two-terminal fixture, the generic fan-out for one BIODATA record
enqueues on target A02 exactly one command whose payload defaults Format
to 0, and appends one sync_log row. -/
theorem createSync_single_biodata (w : World) (m : KV) (record dt : String)
    (hop : parseOperationRecord record = ("BIODATA", m))
    (hpin : truthy (kvGet m "Pin") = true)
    (htype : truthy (kvGet m "Type") = true)
    (htmp : truthy (kvGet m "Tmp") = true)
    (hb64 : isBase64 (jsShow (kvGet m "Tmp")) = true) :
    (createSyncCommands w "A02" "A01" dt [record]).commands.map
        (fun c => (c.device_serial, c.command_data))
      = w.commands.map (fun c => (c.device_serial, c.command_data))
        ++ [("A02", biodataPayload
              { pin := kvGet m "Pin", no := jsOr (kvGet m "No") "0",
                index := jsOr (kvGet m "Index") "0",
                valid := jsOr (kvGet m "Valid") "1",
                duress := jsOr (kvGet m "Duress") "0",
                type := kvGet m "Type",
                majorVer := jsOr (kvGet m "MajorVer") "0",
                minorVer := jsOr (kvGet m "MinorVer") "0",
                format := jsOr (kvGet m "Format") "0",
                template := kvGet m "Tmp" })] := by
  unfold createSyncCommands
  simp only [List.foldl_cons, List.foldl_nil, hop]
  rw [syncRecordCommand_biodata, if_pos htmp]
  rw [addBiodataTemplate_accepts _ _ _ (by rw [hpin, htype, htmp]; rfl) hb64]
  unfold addCommand
  simp [List.map_append]

/-! ## Fan-out counting lemmas -/

/-- One fan-out step for a USER record: exactly one command is appended,
owned by the target device; the device table is untouched. -/
theorem createSyncCommands_user_countP (w : World)
    (target src dt record s : String) (m : KV)
    (h : parseOperationRecord record = ("USER", m)) :
    (createSyncCommands w target src dt [record]).commands.countP
        (fun c => c.device_serial = s)
      = w.commands.countP (fun c => c.device_serial = s)
        + (if target = s then 1 else 0)
    ∧ (createSyncCommands w target src dt [record]).devices = w.devices := by
  simp only [createSyncCommands, List.foldl_cons, List.foldl_nil, h]
  simp only [syncRecordCommand, if_pos rfl, if_true, addUser, addCommand]
  constructor
  · simp only [List.countP_append, List.countP_cons, List.countP_nil]
    by_cases ht : target = s <;> simp [ht]
  · trivial

/-- Folding the USER fan-out over a device list adds one command per
occurrence of a serial in the list. -/
theorem foldl_sync_user_countP (ds : List Device) (w : World)
    (src dt record s : String) (m : KV)
    (h : parseOperationRecord record = ("USER", m)) :
    (ds.foldl (fun w device =>
        createSyncCommands w device.serial_number src dt [record]) w).commands.countP
        (fun c => c.device_serial = s)
      = w.commands.countP (fun c => c.device_serial = s)
        + ds.countP (fun d => d.serial_number = s) := by
  induction ds generalizing w with
  | nil => simp
  | cons d ds ih =>
    have step := createSyncCommands_user_countP w d.serial_number src dt record s m h
    simp only [List.foldl_cons, List.countP_cons]
    rw [ih (createSyncCommands w d.serial_number src dt [record]), step.1]
    by_cases hd : d.serial_number = s <;> simp [hd] <;> omega

/-- The serial-occurrence count in the fan-out target list: one for a
registered peer distinct from the source, zero for the source and for
unregistered serials. -/
theorem fanout_targets_countP (w : World) (src : String)
    (hnodup : (w.devices.map (fun d => d.serial_number)).Nodup) :
    (∀ peer : Device, peer ∈ w.devices → peer.serial_number ≠ src →
      ((getAllDevices w).filter (fun d => d.serial_number ≠ src)).countP
        (fun d => d.serial_number = peer.serial_number) = 1)
    ∧ ((getAllDevices w).filter (fun d => d.serial_number ≠ src)).countP
        (fun d => d.serial_number = src) = 0
    ∧ (∀ s, s ∉ w.devices.map (fun d => d.serial_number) →
      ((getAllDevices w).filter (fun d => d.serial_number ≠ src)).countP
        (fun d => d.serial_number = s) = 0) := by
  refine ⟨?_, ?_, ?_⟩
  · intro peer hpeer hne
    rw [List.countP_filter]
    have hpt : ∀ d : Device,
        ((decide (d.serial_number = peer.serial_number)
          && decide (¬ d.serial_number = src)) = true)
          ↔ (decide (d.serial_number = peer.serial_number) = true) := by
      intro d
      by_cases hd : d.serial_number = peer.serial_number
      · simp [hd, hne]
      · simp [hd]
    rw [List.countP_congr (fun a _ => hpt a)]
    rw [getAllDevices, (w.devices.reverse_perm).countP_eq]
    have hmap : w.devices.countP (fun d => d.serial_number = peer.serial_number)
        = (w.devices.map (fun d => d.serial_number)).count peer.serial_number := by
      rw [List.count_eq_countP, List.countP_map]
      apply List.countP_congr
      intro a _
      simp [Function.comp]
    rw [hmap]
    exact List.count_eq_one_of_mem hnodup (List.mem_map_of_mem _ hpeer)
  · rw [List.countP_eq_zero]
    intro d hd
    have hmem := List.of_mem_filter hd
    simp only [decide_eq_true_eq] at hmem ⊢
    exact hmem
  · intro s hs
    rw [List.countP_eq_zero]
    intro d hd
    have hdm : d ∈ w.devices := by
      have := List.mem_of_mem_filter hd
      rw [getAllDevices, List.mem_reverse] at this
      exact this
    simp only [decide_eq_true_eq]
    intro hds
    exact hs (hds ▸ List.mem_map_of_mem (fun d => d.serial_number) hdm)

end ZK

open ZK

/-- C4: with registered terminals A01 and A02, uploading the legacy
fingerprint record FP PIN=1001 FID=3 Size=512 Valid=1 TMP=AAAA (tab
separated) from A01 leaves exactly one command on the queue of A02, whose
payload is the unified DATA UPDATE BIODATA line with type 1 and exactly
nine tabs, and nothing on the queue of the source A01. -/
theorem zk_c4_fp_unification :
    (((processOperationLog wA01A02 "A01"
        "FP PIN=1001\tFID=3\tSize=512\tValid=1\tTMP=AAAA" "").1.commands.filter
          (fun c => c.device_serial = "A02")).map (fun c => c.command_data))
      = ["DATA UPDATE BIODATA Pin=1001\tNo=3\tIndex=0\tValid=1\tDuress=0\tType=1\tMajorVer=0\tMinorVer=0\tFormat=ZK\tTmp=AAAA"]
    ∧ tabCount "DATA UPDATE BIODATA Pin=1001\tNo=3\tIndex=0\tValid=1\tDuress=0\tType=1\tMajorVer=0\tMinorVer=0\tFormat=ZK\tTmp=AAAA" = 9
    ∧ ((processOperationLog wA01A02 "A01"
        "FP PIN=1001\tFID=3\tSize=512\tValid=1\tTMP=AAAA" "").1.commands.filter
          (fun c => c.device_serial = "A01")) = [] := by
  refine ⟨?_, ?_, ?_⟩ <;> decide

/-- C1 counterexample: a reply with Return=-1003 (a retryable failure on a
DATA UPDATE payload, retry count 0) names a known (command id, terminal)
pair, yet processCommandReply moves the row to completed — not back to
pending as the claim requires — storing the reply body as result. -/
theorem zk_c1_counterexample :
    ((processCommandReply wReply "A02"
        "ID=cafe012345678901&Return=-1003&CMD=DATA").commands.map
      (fun c => (c.status, c.result)))
      = [("completed", some "ID=cafe012345678901&Return=-1003&CMD=DATA")]
    ∧ ("completed" : String) ≠ "pending"
    ∧ ("completed" : String) ≠ "failed" := by
  refine ⟨?_, ?_, ?_⟩ <;> decide

/-- C2 counterexample: terminal A02 was last seen at time 0, far outside
the ten-minute window once the clock reads 1000, yet the fan-out of a USER
record from A01 enqueues a command for it; getActiveDevices applies no
last-seen filter at all. -/
theorem zk_c2_counterexample :
    ((syncDataToOtherDevices wA01A02 "A01" "OPERLOG"
        ["USER PIN=1001\tName=Alice\tPri=0\tPasswd=\tCard=\tGrp=1\tTZ=0000000000000000\tVerify=-1\tViceCard="]).commands.filter
      (fun c => c.device_serial = "A02")).length = 1
    ∧ (wA01A02.devices.filter (fun d => d.serial_number = "A02")).map
        (fun d => d.last_seen) = [0]
    ∧ getActiveDevices wA01A02 10 = wA01A02.devices := by
  refine ⟨?_, ?_, ?_⟩ <;> decide

/-- C3 counterexample: a template value that ends in base64 padding is
truncated at its first equals sign by the key=value split of both upload
parsers, so the stored and re-emitted blob is not byte-for-byte equal to
the uploaded one. -/
theorem zk_c3_counterexample :
    kvGet (parseKeyValueString "PIN=1001\tFID=3\tSize=512\tValid=1\tTMP=AAAA=")
        "TMP" = some "AAAA"
    ∧ (some "AAAA" : Option String) ≠ some "AAAA="
    ∧ kvGet (parseBiodataRecord "Pin=1001 No=3 Index=0 Valid=1 Type=1 Tmp=QUJE=")
        "Tmp" = some "QUJE" := by
  refine ⟨?_, ?_, ?_⟩ <;> decide

/-- C6 counterexample: a fingerprint record with slot FID=15 — outside the
0..9 range the claim says is validated — is fanned out anyway: the enqueue
succeeds, a command row with No=15 is created and the sync log records
queued, not skipped. -/
theorem zk_c6_counterexample :
    (((createSyncCommands wA01A02 "A02" "A01" "OPERLOG"
        ["FP PIN=1001\tFID=15\tSize=512\tValid=1\tTMP=AAAAAAAAAAAA"]).commands.filter
      (fun c => c.device_serial = "A02")).map (fun c => c.command_data))
      = ["DATA UPDATE BIODATA Pin=1001\tNo=15\tIndex=0\tValid=1\tDuress=0\tType=1\tMajorVer=0\tMinorVer=0\tFormat=ZK\tTmp=AAAAAAAAAAAA"]
    ∧ ((createSyncCommands wA01A02 "A02" "A01" "OPERLOG"
        ["FP PIN=1001\tFID=15\tSize=512\tValid=1\tTMP=AAAAAAAAAAAA"]).sync_log.map
      (fun r => r.status)) = ["queued"] := by
  refine ⟨?_, ?_⟩ <;> decide

/-- C7 counterexample: a ping from A02 answers OK but leaves the world —
and in particular the last-seen column of A02 — completely unchanged,
whereas the update the claim asserts (here performed by the never-called
updateLastSeen) would have produced a different devices table. -/
theorem zk_c7_counterexample :
    handleHeartbeat wA01A02 (some "A02") = (wA01A02, "OK")
    ∧ (handleHeartbeat wA01A02 (some "A02")).1.devices
        ≠ (updateLastSeen wA01A02 "A02" 2000).devices := by
  refine ⟨?_, ?_⟩ <;> decide

/-- C1 amended: processCommandReply — the reconciliation path wired to the
reply endpoint — moves every row matching the (command id, terminal) pair
to completed with the full reply body stored as result, for every Return
code alike; the commands schema has no retry counter.  The retry behaviour
the claim describes lives only in the legacy markCommandCompleted handler,
which matches rows by command id alone, stores no result, and on a
non-zero Return increments the counter while it is below 3 and re-pends the
row (clearing sent_at) while the incremented counter is still below 3 —
irrespective of whether the payload is a DATA UPDATE/DATA DELETE. -/
theorem zk_c1_amended :
    (∀ (w : World) (serial replyData id : String),
        kvGet (parseCommandReply replyData) "ID" = some id → id ≠ "" →
        (processCommandReply w serial replyData).commands
          = w.commands.map (fun c =>
              if c.command_id = id ∧ c.device_serial = serial then
                { c with status := "completed", result := some replyData }
              else c))
    ∧ (∀ (rows : List LegacyCmdRow) (cid ret : String) (now : Nat),
        markCommandCompleted rows cid ret now
          = rows.map (fun r =>
              if r.command_id = cid then
                (if ret = "0" then
                  { r with status := "completed", completed_at := some now }
                else if r.retry_count < 2 then
                  { r with status := "pending",
                           retry_count := r.retry_count + 1,
                           sent_at := none, completed_at := some now }
                else if r.retry_count < 3 then
                  { r with status := "failed",
                           retry_count := r.retry_count + 1,
                           completed_at := some now }
                else
                  { r with status := "failed", completed_at := some now })
              else r)) := by
  constructor
  · intro w serial replyData id hid hne
    simp only [processCommandReply, hid]
    rw [if_pos hne]
  · intro rows cid ret now
    by_cases hret : ret = "0"
    · subst hret
      simp [markCommandCompleted]
    · simp only [markCommandCompleted, if_neg hret, if_pos rfl]
      rw [List.map_map, List.map_map]
      apply List.map_congr_left
      intro r _
      by_cases hr : r.command_id = cid
      · by_cases h2 : r.retry_count < 2
        · have h3 : r.retry_count < 3 := by omega
          have h3' : r.retry_count + 1 < 3 := by omega
          simp [hr, h2, h3, h3', hret]
        · by_cases h3 : r.retry_count < 3
          · have h3' : ¬ (r.retry_count + 1 < 3) := by omega
            simp [hr, h2, h3, h3', hret]
          · simp [hr, h2, h3, hret]
      · simp [Function.comp_apply, hr]

/-- Witness for the C1 amended theorem at a concrete successful reply. -/
theorem zk_c1_witness :
    (processCommandReply wReply "A02"
        "ID=cafe012345678901&Return=0&CMD=DATA").commands
      = wReply.commands.map (fun c =>
          if c.command_id = "cafe012345678901" ∧ c.device_serial = "A02" then
            { c with status := "completed",
                     result := some "ID=cafe012345678901&Return=0&CMD=DATA" }
          else c) :=
  zk_c1_amended.1 wReply "A02" "ID=cafe012345678901&Return=0&CMD=DATA"
    "cafe012345678901" (by decide) (by decide)

/-- C2 amended: the fan-out enqueues exactly one command per registered
terminal other than the source, for every registered terminal other than
the source — the last-seen window plays no part: the code takes
getAllDevices (and getActiveDevices itself queries every device without a
last-seen condition), so a registered terminal whose last-seen is older
than the window still receives the command. -/
theorem zk_c2_amended (w : World) (src dt record : String) (m : KV)
    (peer : Device)
    (hrec : parseOperationRecord record = ("USER", m))
    (hnodup : (w.devices.map (fun d => d.serial_number)).Nodup)
    (hpeer : peer ∈ w.devices) (hne : peer.serial_number ≠ src) :
    ((syncDataToOtherDevices w src dt [record]).commands.countP
        (fun c => c.device_serial = peer.serial_number)
      = w.commands.countP (fun c => c.device_serial = peer.serial_number) + 1)
    ∧ ((syncDataToOtherDevices w src dt [record]).commands.countP
        (fun c => c.device_serial = src)
      = w.commands.countP (fun c => c.device_serial = src))
    ∧ (∀ s, s ∉ w.devices.map (fun d => d.serial_number) →
        (syncDataToOtherDevices w src dt [record]).commands.countP
            (fun c => c.device_serial = s)
          = w.commands.countP (fun c => c.device_serial = s)) := by
  have htargets := fanout_targets_countP w src hnodup
  refine ⟨?_, ?_, ?_⟩
  · simp only [syncDataToOtherDevices]
    rw [foldl_sync_user_countP _ _ _ _ _ peer.serial_number m hrec,
      htargets.1 peer hpeer hne]
  · simp only [syncDataToOtherDevices]
    rw [foldl_sync_user_countP _ _ _ _ _ src m hrec, htargets.2.1]
    omega
  · intro s hs
    simp only [syncDataToOtherDevices]
    rw [foldl_sync_user_countP _ _ _ _ _ s m hrec, htargets.2.2 s hs]
    omega

/-- Witness for the C2 amended theorem: terminal A02 — last seen at time 0,
stale by any window — still receives exactly one command from the fan-out
of a USER record uploaded by A01. -/
theorem zk_c2_witness :
    ((syncDataToOtherDevices wA01A02 "A01" "OPERLOG" [userRecS2]).commands.countP
        (fun c => c.device_serial = devA02.serial_number))
      = wA01A02.commands.countP
          (fun c => c.device_serial = devA02.serial_number) + 1 :=
  (zk_c2_amended wA01A02 "A01" "OPERLOG" userRecS2
      (parseOperationRecord userRecS2).2 devA02 (by decide) (by decide)
      (by decide) (by decide)).1

/-- C3, corrected: a template blob free of '=' (hence in particular base64
without padding) survives parse → fan-out → formatter byte-for-byte: both the
tab-split and the whitespace-split parser return it unchanged, and the FP
fan-out path emits a BIODATA payload whose Tmp field is exactly the uploaded
bytes.  A '=' inside the value — precisely the base64-padding case the claim
singles out — is instead truncated at the first '=' already during parsing,
because the destructuring [key, value] = part.split('=') keeps only the
first two fragments. -/
theorem zk_c3_amended (t u : String) (w : World)
    (hne : t ≠ "")
    (heq : ∀ x ∈ t.data, x ≠ '=')
    (hws : ∀ x ∈ t.data, isJsSpace x = false)
    (hb64 : isBase64 t = true)
    (huws : ∀ x ∈ u.data, isJsSpace x = false) :
    kvGet (parseKeyValueString ("PIN=1001\tFID=3\tSize=512\tValid=1\tTMP=" ++ t)) "TMP"
      = some t
    ∧ kvGet (parseBiodataRecord ("Pin=1001 Tmp=" ++ t)) "Tmp" = some t
    ∧ kvGet (parseKeyValueString ("TMP=" ++ t ++ "=" ++ u)) "TMP" = some t
    ∧ ((syncRecordCommand w "B02" "FP"
          (parseKeyValueString ("PIN=1001\tFID=3\tSize=512\tValid=1\tTMP=" ++ t))).1.commands.map
        (fun c => c.command_data))
        = w.commands.map (fun c => c.command_data)
          ++ ["DATA UPDATE BIODATA Pin=1001\tNo=3\tIndex=0\tValid=1\tDuress=0\tType=1\tMajorVer=0\tMinorVer=0\tFormat=ZK\tTmp=" ++ t] := by
  have htabne : ∀ x ∈ t.data, x ≠ '\t' := by
    intro x hx h
    have hs := hws x hx
    rw [h] at hs
    simp [isJsSpace] at hs
  have hutabne : ∀ x ∈ u.data, x ≠ '\t' := by
    intro x hx h
    have hs := huws x hx
    rw [h] at hs
    simp [isJsSpace] at hs
  have hsplit : splitCh '\t' ("PIN=1001\tFID=3\tSize=512\tValid=1\tTMP=" ++ t).data
      = ["PIN=1001".data, "FID=3".data, "Size=512".data, "Valid=1".data,
         "TMP=".data ++ t.data] := by
    show splitCh '\t'
        ("PIN=1001".data ++ '\t' :: ("FID=3".data ++ '\t' :: ("Size=512".data
          ++ '\t' :: ("Valid=1".data ++ '\t' :: ("TMP=".data ++ t.data))))) = _
    rw [splitCh_append_sep '\t' _ _ (by decide),
        splitCh_append_sep '\t' _ _ (by decide),
        splitCh_append_sep '\t' _ _ (by decide),
        splitCh_append_sep '\t' _ _ (by decide),
        splitCh_no_sep '\t' ("TMP=".data ++ t.data)
          (fun x hx => by
            rcases List.mem_append.mp hx with h | h
            · exact (by decide : ∀ y ∈ "TMP=".data, y ≠ '\t') x h
            · exact htabne x h)]
  have hlast : kvOfPart ⟨"TMP=".data ++ t.data⟩ = some ("TMP", t) :=
    kvOfPart_exact "TMP" t (by decide) (by decide) heq
  have hm : parseKeyValueString ("PIN=1001\tFID=3\tSize=512\tValid=1\tTMP=" ++ t)
      = [("TMP", t), ("Valid", "1"), ("Size", "512"), ("FID", "3"), ("PIN", "1001")] := by
    unfold parseKeyValueString jsSplit
    rw [hsplit]
    simp only [List.map_cons, List.map_nil, List.foldl_cons, List.foldl_nil,
      (by decide : kvOfPart ⟨"PIN=1001".data⟩ = some ("PIN", "1001")),
      (by decide : kvOfPart ⟨"FID=3".data⟩ = some ("FID", "3")),
      (by decide : kvOfPart ⟨"Size=512".data⟩ = some ("Size", "512")),
      (by decide : kvOfPart ⟨"Valid=1".data⟩ = some ("Valid", "1")),
      hlast, kvSet]
  refine ⟨by rw [hm]; rfl, ?_, ?_, ?_⟩
  · -- whitespace-split parser
    have htrim : jsTrim ("Pin=1001 Tmp=" ++ t) = "Pin=1001 Tmp=" ++ t := by
      apply jsTrim_eq_self
      · intro b hb
        have hhd : ("Pin=1001 Tmp=" ++ t).data.head? = some 'P' := rfl
        rw [hhd] at hb
        cases hb
        decide
      · intro b hb
        have hrev : ("Pin=1001 Tmp=" ++ t).data.reverse
            = t.data.reverse ++ "Pin=1001 Tmp=".data.reverse := by
          show ("Pin=1001 Tmp=".data ++ t.data).reverse = _
          rw [List.reverse_append]
        rw [hrev] at hb
        cases hr : t.data.reverse with
        | nil =>
          cases t with
          | mk d =>
            have hd0 : d = [] := List.reverse_eq_nil_iff.mp hr
            subst hd0
            exact absurd rfl hne
        | cons y ys =>
          rw [hr, List.cons_append] at hb
          have hby : b = y := by
            simp [List.head?] at hb
            exact hb.symm
          subst hby
          have hy : b ∈ t.data := by
            have : b ∈ t.data.reverse := by
              rw [hr]
              exact List.mem_cons_self b ys
            simpa using this
          exact hws b hy
    have hsplit2 : splitPredNonEmpty isJsSpace ("Pin=1001 Tmp=" ++ t).data
        = ["Pin=1001".data, "Tmp=".data ++ t.data] := by
      unfold splitPredNonEmpty
      rw [show ("Pin=1001 Tmp=" ++ t).data
            = "Pin=1001".data ++ ' ' :: ("Tmp=".data ++ t.data) from rfl,
          splitOnP_append_sep isJsSpace _ _ ' ' (by decide) (by decide),
          splitOnP_no_sep isJsSpace ("Tmp=".data ++ t.data)
            (fun x hx => by
              rcases List.mem_append.mp hx with h | h
              · exact (by decide : ∀ y ∈ "Tmp=".data, isJsSpace y = false) x h
              · exact hws x h)]
      rfl
    have hm2 : parseBiodataRecord ("Pin=1001 Tmp=" ++ t)
        = [("Tmp", t), ("Pin", "1001")] := by
      unfold parseBiodataRecord
      rw [htrim, hsplit2]
      simp only [List.map_cons, List.map_nil, List.foldl_cons, List.foldl_nil,
        (by decide : kvOfPart ⟨"Pin=1001".data⟩ = some ("Pin", "1001")), kvSet]
      rw [show kvOfPart { data := ['T', 'm', 'p', '='] ++ t.data } = some ("Tmp", t) from
        kvOfPart_exact "Tmp" t (by decide) (by decide) heq]
    rw [hm2]
    rfl
  · -- truncation at the first '=' inside the value
    have hd3 : ("TMP=" ++ t ++ "=" ++ u).data
        = "TMP".data ++ '=' :: (t.data ++ '=' :: u.data) := by
      show (("TMP=".data ++ t.data) ++ "=".data) ++ u.data = _
      simp only [List.append_assoc]
      rfl
    have hone : splitCh '\t' ("TMP=" ++ t ++ "=" ++ u).data
        = [("TMP=" ++ t ++ "=" ++ u).data] := by
      apply splitCh_no_sep
      rw [hd3]
      intro x hx
      rcases List.mem_append.mp hx with h | h
      · exact (by decide : ∀ y ∈ "TMP".data, y ≠ '\t') x h
      · rcases List.mem_cons.mp h with h | h
        · subst h; decide
        · rcases List.mem_append.mp h with h | h
          · exact htabne x h
          · rcases List.mem_cons.mp h with h | h
            · subst h; decide
            · exact hutabne x h
    have hpart : kvOfPart ⟨("TMP=" ++ t ++ "=" ++ u).data⟩ = some ("TMP", t) := by
      have hx := kvOfPart_truncates "TMP" t u (by decide) (by decide) heq
      rw [show (⟨("TMP=" ++ t ++ "=" ++ u).data⟩ : String)
            = ⟨"TMP".data ++ '=' :: (t.data ++ '=' :: u.data)⟩ from
          congrArg String.mk hd3]
      exact hx
    have hm3 : parseKeyValueString ("TMP=" ++ t ++ "=" ++ u) = [("TMP", t)] := by
      unfold parseKeyValueString jsSplit
      rw [hone]
      simp only [List.map_cons, List.map_nil, List.foldl_cons, List.foldl_nil,
        hpart, kvSet]
    rw [hm3]
    rfl
  · -- fan-out emit: FP path, byte-for-byte Tmp
    rw [hm, syncRecordCommand_fp]
    rw [show kvGet [("TMP", t), ("Valid", "1"), ("Size", "512"), ("FID", "3"),
          ("PIN", "1001")] "PIN" = some "1001" from rfl,
        show kvGet [("TMP", t), ("Valid", "1"), ("Size", "512"), ("FID", "3"),
          ("PIN", "1001")] "FID" = some "3" from rfl,
        show kvGet [("TMP", t), ("Valid", "1"), ("Size", "512"), ("FID", "3"),
          ("PIN", "1001")] "Valid" = some "1" from rfl,
        show kvGet [("TMP", t), ("Valid", "1"), ("Size", "512"), ("FID", "3"),
          ("PIN", "1001")] "TMP" = some t from rfl,
        show intStr (jsParseIntOr (some "3") 0) = "3" from by decide,
        show intStr (jsParseIntOr (some "1") 1) = "1" from by decide]
    rw [addBiodataTemplate_accepts w "B02"
        { pin := some "1001", no := "3", index := "0", valid := "1",
          duress := "0", type := some "1", majorVer := "0", minorVer := "0",
          format := "ZK", template := some t }
        (by
          show (truthy (some "1001") && truthy (some "1") && truthy (some t)) = true
          rw [show truthy (some t) = true from by simp [truthy, hne]]
          decide)
        hb64]
    simp only [addCommand, List.map_append, List.map_cons, List.map_nil]
    rfl

/-- Witness for zk_c3_amended at the padding-free blob QUJB: the hypotheses
hold and the tab parser returns the blob unchanged. -/
theorem zk_c3_witness :
    (∀ x ∈ ("QUJB" : String).data, x ≠ '=') ∧
    kvGet (parseKeyValueString ("PIN=1001\tFID=3\tSize=512\tValid=1\tTMP=" ++ "QUJB")) "TMP"
      = some "QUJB" :=
  ⟨by decide, (zk_c3_amended "QUJB" "" emptyWorld (by decide) (by decide)
      (by decide) (by decide) (by decide)).1⟩

/-- C5: validateAndFixTabs routes every stored DATA UPDATE BIODATA payload
through validateBiodataCommand, which re-extracts the ten named fields and
re-emits the present ones joined by single tabs in canonical order; the
names of the emitted fields are a duplicate-free sublist of the canonical
order Pin, No, Index, Valid, Duress, Type, MajorVer, MinorVer, Format, Tmp;
when the extracted values are tab-free the emitted payload carries exactly
(number of present fields - 1) tabs, and when all ten extractions are
present there are ten fields, hence 9 tabs. -/
theorem zk_c5_repair (commandData : String)
    (hstart : strStartsWith commandData "DATA UPDATE BIODATA " = true) :
    validateAndFixTabs commandData
      = "DATA UPDATE BIODATA "
        ++ joinSep "\t" ((biodataFields (strDrop commandData 20).data).map
             (fun f => f.1 ++ "=" ++ f.2))
    ∧ ((biodataFields (strDrop commandData 20).data).map Prod.fst).Sublist
        ["Pin", "No", "Index", "Valid", "Duress", "Type", "MajorVer",
         "MinorVer", "Format", "Tmp"]
    ∧ ((biodataFields (strDrop commandData 20).data).map Prod.fst).Nodup
    ∧ ((∀ f ∈ biodataFields (strDrop commandData 20).data,
          f.2.data.count '\t' = 0) →
        tabCount (validateAndFixTabs commandData)
          = (biodataFields (strDrop commandData 20).data).length - 1)
    ∧ ((∀ p ∈ biodataParams (strDrop commandData 20).data, p.2.isSome = true) →
        (biodataFields (strDrop commandData 20).data).length = 10) := by
  have h0 : strStartsWith commandData "DATA UPDATE BIODATA" = true :=
    strStartsWith_weaken commandData _ _ (by decide) hstart
  have hany : (tabCommands.any (fun cmd => strStartsWith commandData cmd)) = true := by
    simp only [tabCommands, List.any_cons, h0, Bool.true_or]
  have hpre : ("DATA UPDATE BIODATA ".data.isPrefixOf commandData.data) = true := hstart
  obtain ⟨rest, hrest⟩ := List.isPrefixOf_iff_prefix.mp hpre
  have hsp : splitCh ' ' commandData.data
      = "DATA".data :: "UPDATE".data :: "BIODATA".data :: splitCh ' ' rest := by
    rw [← hrest]
    show splitCh ' '
        ("DATA".data ++ ' ' :: ("UPDATE".data ++ ' ' :: ("BIODATA".data ++ ' ' :: rest))) = _
    rw [splitCh_append_sep ' ' _ _ (by decide),
        splitCh_append_sep ' ' _ _ (by decide),
        splitCh_append_sep ' ' _ _ (by decide)]
  have hlen : ¬ ((jsSplit ' ' commandData).length < 2) := by
    unfold jsSplit
    rw [hsp]
    simp only [List.map_cons, List.length_cons, List.length_map]
    omega
  have hc1 : validateAndFixTabs commandData
      = "DATA UPDATE BIODATA "
        ++ joinSep "\t" ((biodataFields (strDrop commandData 20).data).map
             (fun f => f.1 ++ "=" ++ f.2)) := by
    unfold validateAndFixTabs
    rw [if_neg (by simp [hany])]
    simp only [hlen, h0, if_true, if_false, ite_true, ite_false]
    unfold validateBiodataCommand
    rw [if_neg (by simp [hstart])]
  refine ⟨hc1, biodataFields_names_sublist _, ?_, ?_, ?_⟩
  · exact ((biodataFields_names_sublist _).nodup (by decide))
  · intro h9
    have hfree : ∀ s ∈ (biodataFields (strDrop commandData 20).data).map
        (fun f => f.1 ++ "=" ++ f.2), s.data.count '\t' = 0 := by
      intro s hs
      rcases List.mem_map.mp hs with ⟨f, hf, hfs⟩
      subst hfs
      have hcnt := h9 f hf
      have hf1 : f.1 ∈ ["Pin", "No", "Index", "Valid", "Duress", "Type",
          "MajorVer", "MinorVer", "Format", "Tmp"] :=
        (biodataFields_names_sublist _).subset
          (List.mem_map_of_mem Prod.fst hf)
      have hn : f.1.data.count '\t' = 0 := by
        simp only [List.mem_cons, List.not_mem_nil, or_false] at hf1
        rcases hf1 with h|h|h|h|h|h|h|h|h|h <;> (rw [h]; decide)
      show (f.1 ++ "=" ++ f.2).data.count '\t' = 0
      rw [show (f.1 ++ "=" ++ f.2).data = f.1.data ++ "=".data ++ f.2.data from by
        simp [String.data_append]]
      simp [List.count_append, hn, hcnt]
    rw [hc1, tabCount_append, tabCount_joinSep_tab _ hfree, List.length_map,
        show tabCount "DATA UPDATE BIODATA " = 0 from by decide]
    omega
  · intro h10
    show (biodataFields _).length = 10
    unfold biodataFields
    rw [filterMap_present_length _ h10]
    rfl

/-- Witness for zk_c5_repair on a space-separated stored payload: the
repair emits the canonical tab-joined rebuild. -/
theorem zk_c5_witness :
    strStartsWith "DATA UPDATE BIODATA Pin=1001 No=3 Index=0 Valid=1 Duress=0 Type=1 MajorVer=0 MinorVer=0 Format=ZK Tmp=QUJB"
        "DATA UPDATE BIODATA " = true
    ∧ validateAndFixTabs "DATA UPDATE BIODATA Pin=1001 No=3 Index=0 Valid=1 Duress=0 Type=1 MajorVer=0 MinorVer=0 Format=ZK Tmp=QUJB"
      = "DATA UPDATE BIODATA "
        ++ joinSep "\t" ((biodataFields (strDrop "DATA UPDATE BIODATA Pin=1001 No=3 Index=0 Valid=1 Duress=0 Type=1 MajorVer=0 MinorVer=0 Format=ZK Tmp=QUJB" 20).data).map
             (fun f => f.1 ++ "=" ++ f.2)) :=
  ⟨by decide,
   (zk_c5_repair "DATA UPDATE BIODATA Pin=1001 No=3 Index=0 Valid=1 Duress=0 Type=1 MajorVer=0 MinorVer=0 Format=ZK Tmp=QUJB"
      (by decide)).1⟩

/-- C6, corrected: on the upload fan-out path the only validation before a
biometric enqueue is the addBiodataTemplate gate - pin, type and template
truthy and template base64 - so acceptance is independent of the slot
values No and Index; a refused enqueue leaves the command queue untouched
and makes createSyncCommands log the record as skipped.  The slot-range
rules the claim describes (fingerprint slot 0..9, face slot exactly 0) are
enforced only by validateBiometricTemplate, which the fan-out never calls. -/
theorem zk_c6_amended (w : World) (target src dt record : String) (m : KV)
    (td : TemplateData) (f : Int)
    (hm : parseOperationRecord record = ("BIODATA", m))
    (hf : td.fid = some f) :
    (syncRecordCommand w target "BIODATA" m).2.isOk
      = (truthy (kvGet m "Tmp")
         && ((truthy (kvGet m "Pin") && truthy (kvGet m "Type")
              && truthy (kvGet m "Tmp"))
             && isBase64 (jsShow (kvGet m "Tmp"))))
    ∧ ((syncRecordCommand w target "BIODATA" m).2.isOk = false →
        (syncRecordCommand w target "BIODATA" m).1 = w)
    ∧ ((syncRecordCommand w target "BIODATA" m).2.isOk = false →
        createSyncCommands w target src dt [record]
          = { w with sync_log := w.sync_log ++
              [{ source_device := src, target_device := some target,
                 data_type := "BIODATA",
                 data_id := jsOr (kvGet m "PIN")
                   (jsOr (kvGet m "Pin") (jsOr (kvGet m "IDNum") "unknown")),
                 action := "sync", status := "skipped" }] })
    ∧ (validateBiometricTemplate td "fingerprint" = none → 0 ≤ f ∧ f ≤ 9)
    ∧ (validateBiometricTemplate td "face" = none → f = 0) := by
  have hok : (syncRecordCommand w target "BIODATA" m).2.isOk
      = (truthy (kvGet m "Tmp")
         && ((truthy (kvGet m "Pin") && truthy (kvGet m "Type")
              && truthy (kvGet m "Tmp"))
             && isBase64 (jsShow (kvGet m "Tmp")))) := by
    rw [syncRecordCommand_biodata]
    by_cases ht : truthy (kvGet m "Tmp") = true
    · rw [if_pos ht, addBiodataTemplate_isOk, ht, Bool.true_and]
    · have htf : truthy (kvGet m "Tmp") = false := Bool.eq_false_iff.mpr ht
      rw [if_neg (by simp [htf]), htf, Bool.false_and]
      rfl
  have hun : (syncRecordCommand w target "BIODATA" m).2.isOk = false →
      (syncRecordCommand w target "BIODATA" m).1 = w := by
    intro hfail
    rw [syncRecordCommand_biodata] at hfail ⊢
    by_cases ht : truthy (kvGet m "Tmp") = true
    · rw [if_pos ht] at hfail ⊢
      exact addBiodataTemplate_refused w target _ hfail
    · rw [if_neg (by simp [Bool.eq_false_iff.mpr ht])]
  refine ⟨hok, hun, ?_, ?_, ?_⟩
  · intro hfail
    unfold createSyncCommands
    simp only [List.foldl_cons, List.foldl_nil, hm]
    rw [hun hfail]
    simp [hfail]
  · intro hv
    unfold validateBiometricTemplate at hv
    by_cases h1 : (truthy td.pin && truthy td.template) = true
    · rw [if_neg (by simp [h1])] at hv
      by_cases h2 : isBase64 (jsShow td.template) = true
      · rw [if_neg (by simp [h2])] at hv
        rw [hf] at hv
        by_cases h3 : f < 0 ∨ 9 < f
        · simp [show toLowerStr "fingerprint" = "fingerprint" from by decide, h3] at hv
        · constructor <;> omega
      · rw [if_pos h2] at hv
        simp at hv
    · rw [if_pos h1] at hv
      simp at hv
  · intro hv
    unfold validateBiometricTemplate at hv
    by_cases h1 : (truthy td.pin && truthy td.template) = true
    · rw [if_neg (by simp [h1])] at hv
      by_cases h2 : isBase64 (jsShow td.template) = true
      · rw [if_neg (by simp [h2])] at hv
        rw [hf] at hv
        by_cases h3 : f = 0
        · exact h3
        · simp [show toLowerStr "face" = "face" from by decide,
            show toLowerStr "face" = "fingerprint" ↔ False from by decide, h3] at hv
      · rw [if_pos h2] at hv
        simp at hv
    · rw [if_pos h1] at hv
      simp at hv

/-- Witness for zk_c6_amended: a concrete BIODATA record and a template
with fingerprint slot 5, whose management-path validation indeed implies
the 0..9 range. -/
theorem zk_c6_witness :
    parseOperationRecord "BIODATA Pin=1001 Type=1 Tmp=QUJB"
      = ("BIODATA", parseBiodataRecord "Pin=1001 Type=1 Tmp=QUJB")
    ∧ (validateBiometricTemplate
        { pin := some "1001", template := some "QUJBQUJBQUJB", fid := some 5 }
        "fingerprint" = none → 0 ≤ (5 : Int) ∧ (5 : Int) ≤ 9) :=
  ⟨by decide,
   (zk_c6_amended emptyWorld "B02" "A01" "OPERLOG"
      "BIODATA Pin=1001 Type=1 Tmp=QUJB"
      (parseBiodataRecord "Pin=1001 Type=1 Tmp=QUJB")
      { pin := some "1001", template := some "QUJBQUJBQUJB", fid := some 5 } 5
      (by decide) (by decide)).2.2.2.1⟩

/-- C7, corrected: the ping handler answers OK but performs no database
write at all - the whole world, last_seen included, is returned unchanged;
the reply endpoint and the upload pipelines never touch the devices table,
the poll endpoint may rewrite firmware fields through updateDeviceInfo but
preserves every terminal's (serial, last_seen) pair; the only endpoint that
writes last_seen is initialization, whose registration leaves a row with
the requesting serial and the current clock. -/
theorem zk_c7_amended (w : World) (s data body stamp : String)
    (info pv lang pk : Option String) (now : Nat)
    (hs : s ≠ "") :
    handleHeartbeat w (some s) = (w, "OK")
    ∧ (handleCommandReply w (some s) data).1.devices = w.devices
    ∧ (handleCommandRequest w (some s) info).1.devices.map
        (fun d => (d.serial_number, d.last_seen))
        = w.devices.map (fun d => (d.serial_number, d.last_seen))
    ∧ (processOperationLog w s body stamp).1.devices = w.devices
    ∧ (processBioData w s body stamp).1.devices = w.devices
    ∧ ∃ d ∈ (handleInitialization w (some s) pv lang pk now).1.devices,
        d.serial_number = s ∧ d.last_seen = now := by
  refine ⟨?_, ?_, ?_, processOperationLog_devices w s body stamp,
    processBioData_devices w s body stamp, ?_⟩
  · simp only [handleHeartbeat]
    rw [if_neg hs]
  · simp only [handleCommandReply]
    rw [if_neg hs]
    exact processCommandReply_devices w s data
  · simp only [handleCommandRequest]
    rw [if_neg hs]
    cases info with
    | none =>
      rw [getNextCommand_devices]
    | some i0 =>
      rw [getNextCommand_devices]
      rw [show (match some i0 with
            | some i => if i ≠ "" then updateDeviceInfo w s i else w
            | none => w)
          = (if i0 ≠ "" then updateDeviceInfo w s i0 else w) from rfl]
      by_cases hi : i0 ≠ ""
      · rw [if_pos hi]
        exact updateDeviceInfo_lastSeen w s i0
      · rw [if_neg hi]
  · simp only [handleInitialization]
    rw [if_neg hs]
    exact registerDevice_lastSeen w
      { serialNumber := s, pushVersion := jsOr pv "2.2.14",
        language := jsOr lang "69", pushCommKey := pk, lastSeen := now }

/-- Witness for zk_c7_amended: terminal A02 pings; the response is OK and
the world - including the stale last_seen of A02 - is untouched. -/
theorem zk_c7_witness :
    ("A02" : String) ≠ ""
    ∧ handleHeartbeat wA01A02 (some "A02") = (wA01A02, "OK") :=
  ⟨by decide,
   (zk_c7_amended wA01A02 "A02" "" "" "" none none none none 0 (by decide)).1⟩

/-- C8: a poll dequeues the oldest pending command of the polling terminal
and nothing else.  When the pending selection yields a row, that row is a
pending row of the terminal minimising created_at, the response line is
C:(id):(repaired payload), the only rows rewritten are those carrying the
selected id - exactly one when ids are duplicate-free - and the poll
endpoint returns that line; when the selection is empty the endpoint
answers plain OK and the world is unchanged; generated ids are always 16
characters. -/
theorem zk_c8_dequeue (w : World) (s : String) (hs : s ≠ "")
    (hnodup : (w.commands.map (fun c => c.command_id)).Nodup) :
    (∀ r, selectOldest (w.commands.filter
        (fun c => c.device_serial = s && c.status = "pending")) = some r →
      r ∈ w.commands ∧ r.device_serial = s ∧ r.status = "pending"
      ∧ (∀ c ∈ w.commands, c.device_serial = s → c.status = "pending" →
          r.created_at ≤ c.created_at)
      ∧ (getNextCommand w s).2
          = some ("C:" ++ r.command_id ++ ":" ++ validateAndFixTabs r.command_data)
      ∧ (getNextCommand w s).1.commands
          = w.commands.map (fun c =>
              if c.command_id = r.command_id then { c with status := "sent" }
              else c)
      ∧ w.commands.countP (fun c => c.command_id = r.command_id) = 1
      ∧ handleCommandRequest w (some s) none
          = ((getNextCommand w s).1,
             "C:" ++ r.command_id ++ ":" ++ validateAndFixTabs r.command_data))
    ∧ (selectOldest (w.commands.filter
        (fun c => c.device_serial = s && c.status = "pending")) = none →
      handleCommandRequest w (some s) none = (w, "OK"))
    ∧ (∀ n, (genCommandId n).data.length = 16) := by
  refine ⟨?_, ?_, ?_⟩
  · intro r hsel
    obtain ⟨hmemf, hmin⟩ := selectOldest_min _ r hsel
    have hmemc := List.mem_filter.mp hmemf
    have hpred := hmemc.2
    simp only [Bool.and_eq_true, decide_eq_true_eq] at hpred
    have hg2 : (getNextCommand w s).2
        = some ("C:" ++ r.command_id ++ ":" ++ validateAndFixTabs r.command_data) := by
      simp only [getNextCommand]
      rw [hsel]
      rfl
    have hg1 : (getNextCommand w s).1.commands
        = w.commands.map (fun c =>
            if c.command_id = r.command_id then { c with status := "sent" }
            else c) := by
      simp only [getNextCommand]
      rw [hsel]
    refine ⟨hmemc.1, hpred.1, hpred.2, ?_, hg2, hg1, ?_, ?_⟩
    · intro c hc hcs hcp
      exact hmin c (List.mem_filter.mpr ⟨hc, by simp [hcs, hcp]⟩)
    · have key : (w.commands.map (fun c => c.command_id)).countP
          (fun x => x = r.command_id) = 1 :=
        countP_eq_one_of_nodup _ _ hnodup
          (List.mem_map_of_mem _ hmemc.1)
      rw [List.countP_map] at key
      exact key
    · simp only [handleCommandRequest]
      rw [if_neg hs]
      rw [hg2]
      rfl
  · intro hnone
    have hgw : getNextCommand w s = (w, none) := by
      simp only [getNextCommand]
      rw [hnone]
    simp only [handleCommandRequest]
    rw [if_neg hs]
    rw [hgw]
    rfl
  · intro n
    simp [genCommandId]

/-- Witness for zk_c8_dequeue: of two pending rows on A02 enqueued out of
order, the poll returns the one with the smaller created_at. -/
theorem zk_c8_witness :
    ("A02" : String) ≠ ""
    ∧ (getNextCommand
        { devices := [], device_configs := [],
          commands :=
            [{ command_id := "bbbb000000000000", device_serial := "A02",
               command_type := "DATA", command_data := "SET OPTION Delay=5",
               status := "pending", result := none, created_at := 5 },
             { command_id := "aaaa000000000000", device_serial := "A02",
               command_type := "DATA", command_data := "SET OPTION Delay=8",
               status := "pending", result := none, created_at := 0 }],
          sync_log := [], store := [], seq := 2 } "A02").2
      = some ("C:" ++ "aaaa000000000000" ++ ":"
          ++ validateAndFixTabs "SET OPTION Delay=8") :=
  ⟨by decide,
   ((zk_c8_dequeue
      { devices := [], device_configs := [],
        commands :=
          [{ command_id := "bbbb000000000000", device_serial := "A02",
             command_type := "DATA", command_data := "SET OPTION Delay=5",
             status := "pending", result := none, created_at := 5 },
           { command_id := "aaaa000000000000", device_serial := "A02",
             command_type := "DATA", command_data := "SET OPTION Delay=8",
             status := "pending", result := none, created_at := 0 }],
        sync_log := [], store := [], seq := 2 } "A02" (by decide) (by decide)).1
      { command_id := "aaaa000000000000", device_serial := "A02",
        command_type := "DATA", command_data := "SET OPTION Delay=8",
        status := "pending", result := none, created_at := 0 }
      (by decide)).2.2.2.2.1⟩

set_option maxRecDepth 4000 in
/-- C9: on a fresh serial S the init exchange registers S - afterwards
exactly one registry row carries S - and answers the option block headed by
GET OPTION FROM: S followed by the 22 option lines with their default
values, one KEY=VALUE per line joined by LF; a second init for S updates
the existing row instead of inserting: the registry length and the row
count of S are unchanged. -/
theorem zk_c9_init (w : World) (s : String)
    (pv lang pk pv2 lang2 pk2 : Option String) (now now2 : Nat)
    (hs : s ≠ "")
    (hany : w.devices.any (fun d => d.serial_number = s) = false)
    (hcfg : w.device_configs.filter (fun c => c.1 = s) = []) :
    (handleInitialization w (some s) pv lang pk now).2
      = "GET OPTION FROM: " ++ s ++ "\n"
        ++ "ATTLOGStamp=None\nOPERLOGStamp=None\nATTPHOTOStamp=None\nBIODATAStamp=None\nIDCARDStamp=None\nERRORLOGStamp=None\nErrorDelay=30\nDelay=10\nTransTimes=00:00;12:00\nTransInterval=1\nTransFlag=TransData EnrollUser ChgUser EnrollFP ChgFP FACE UserPic BioPhoto WORKCODE FVEIN\nTimeZone=8\nRealtime=1\nEncrypt=None\nServerVer=2.4.1\nPushProtVer=2.4.1\nPushOptionsFlag=1\nPushOptions=FingerFunOn,FaceFunOn,MultiBioDataSupport,MultiBioPhotoSupport,BioPhotoFun,BioDataFun,VisilightFun\nMultiBioDataSupport=0:1:1:0:0:0:0:1:1:1\nMultiBioPhotoSupport=0:1:1:0:0:0:0:1:1:1\nATTPHOTOBase64=1"
    ∧ (handleInitialization w (some s) pv lang pk now).1.devices.countP
        (fun d => d.serial_number = s) = 1
    ∧ (handleInitialization (handleInitialization w (some s) pv lang pk now).1
        (some s) pv2 lang2 pk2 now2).1.devices.length
      = (handleInitialization w (some s) pv lang pk now).1.devices.length
    ∧ (handleInitialization (handleInitialization w (some s) pv lang pk now).1
        (some s) pv2 lang2 pk2 now2).1.devices.countP
        (fun d => d.serial_number = s) = 1 := by
  have hzero : w.devices.countP (fun d => d.serial_number = s) = 0 :=
    List.countP_eq_zero.mpr (fun d hd hdec => by
      have hcontra : w.devices.any (fun d => d.serial_number = s) = true :=
        List.any_eq_true.mpr ⟨d, hd, hdec⟩
      rw [hany] at hcontra
      exact Bool.noConfusion hcontra)
  have hconfigs : (registerDevice w
      { serialNumber := s, pushVersion := jsOr pv "2.2.14",
        language := jsOr lang "69", pushCommKey := pk, lastSeen := now }).device_configs
      = w.device_configs ++ defaultConfigs.map (fun kv => (s, kv.1, kv.2)) := by
    simp only [registerDevice]
    rw [if_neg (by simp [hany])]
    rw [initializeDeviceConfig_configs]
  have hfilter : (defaultConfigs.map (fun kv => (s, kv.1, kv.2))).filter
      (fun c => c.1 = s) = defaultConfigs.map (fun kv => (s, kv.1, kv.2)) :=
    List.filter_eq_self.mpr (by
      intro c hc
      rcases List.mem_map.mp hc with ⟨kv, _, rfl⟩
      simp)
  have hw1 : (handleInitialization w (some s) pv lang pk now).1
      = registerDevice w
        { serialNumber := s, pushVersion := jsOr pv "2.2.14",
          language := jsOr lang "69", pushCommKey := pk, lastSeen := now } := by
    simp only [handleInitialization]
    rw [if_neg hs]
  have hcount1 : (handleInitialization w (some s) pv lang pk now).1.devices.countP
      (fun d => d.serial_number = s) = 1 := by
    rw [hw1]
    simp only [registerDevice]
    rw [if_neg (by simp [hany])]
    rw [initializeDeviceConfig_devices]
    simp [List.countP_append, hzero]
  have hany2 : (handleInitialization w (some s) pv lang pk now).1.devices.any
      (fun d => d.serial_number = s) = true := by
    rw [List.any_eq_true]
    have hpos : 0 < (handleInitialization w (some s) pv lang pk now).1.devices.countP
        (fun d => d.serial_number = s) := by
      rw [hcount1]
      omega
    obtain ⟨d, hd, hdec⟩ := List.countP_pos.mp hpos
    exact ⟨d, hd, hdec⟩
  have hw2 : (handleInitialization
      (handleInitialization w (some s) pv lang pk now).1
      (some s) pv2 lang2 pk2 now2).1
      = registerDevice (handleInitialization w (some s) pv lang pk now).1
        { serialNumber := s, pushVersion := jsOr pv2 "2.2.14",
          language := jsOr lang2 "69", pushCommKey := pk2,
          lastSeen := now2 } := by
    simp only [handleInitialization]
    rw [if_neg hs]
  refine ⟨?_, hcount1, ?_, ?_⟩
  · simp only [handleInitialization]
    rw [if_neg hs]
    unfold getDeviceConfig
    rw [hconfigs, List.filter_append, hcfg, hfilter]
    rfl
  · rw [hw2]
    exact (registerDevice_update _ _ hany2).1
  · rw [hw2, (registerDevice_update _ _ hany2).2 s]
    exact hcount1

/-- Witness for zk_c9_init: initialising fresh terminal A01 on an empty
registry leaves exactly one A01 row. -/
theorem zk_c9_witness :
    ("A01" : String) ≠ ""
    ∧ (handleInitialization emptyWorld (some "A01") none none none 42).1.devices.countP
        (fun d => d.serial_number = "A01") = 1 :=
  ⟨by decide,
   (zk_c9_init emptyWorld "A01" none none none none none none 42 0
      (by decide) (by decide) (by decide)).2.1⟩

/-- C10: a BIODATA record going through processBioData reaches the peer
terminal twice - once from the BIODATA-specific fan-out inside
processBioTemplate (Format defaulting to ZK) and once more from the generic
fan-out run afterwards over the same record list (Format defaulting to 0) -
and when the upload omits Format the two enqueued payloads differ. -/
theorem zk_c10_double_enqueue (data record stamp : String) (m : KV)
    (hrecords : parseDataRecords data = [record])
    (hm : parseBiodataRecord (strDrop record 8) = m)
    (hop : parseOperationRecord record = ("BIODATA", m))
    (hpin : truthy (kvGet m "Pin") = true)
    (htype : truthy (kvGet m "Type") = true)
    (htmp : truthy (kvGet m "Tmp") = true)
    (hb64 : isBase64 (jsShow (kvGet m "Tmp")) = true) :
    ((processBioData wA01A02 "A01" data stamp).1.commands.map
        (fun c => (c.device_serial, c.command_data)))
      = [("A02", biodataPayload
            { pin := kvGet m "Pin", no := jsOr (kvGet m "No") "0",
              index := jsOr (kvGet m "Index") "0",
              valid := jsOr (kvGet m "Valid") "1",
              duress := jsOr (kvGet m "Duress") "0",
              type := kvGet m "Type",
              majorVer := jsOr (kvGet m "MajorVer") "0",
              minorVer := jsOr (kvGet m "MinorVer") "0",
              format := jsOr (kvGet m "Format") "ZK",
              template := kvGet m "Tmp" }),
         ("A02", biodataPayload
            { pin := kvGet m "Pin", no := jsOr (kvGet m "No") "0",
              index := jsOr (kvGet m "Index") "0",
              valid := jsOr (kvGet m "Valid") "1",
              duress := jsOr (kvGet m "Duress") "0",
              type := kvGet m "Type",
              majorVer := jsOr (kvGet m "MajorVer") "0",
              minorVer := jsOr (kvGet m "MinorVer") "0",
              format := jsOr (kvGet m "Format") "0",
              template := kvGet m "Tmp" })]
    ∧ (kvGet m "Format" = none →
        biodataPayload
            { pin := kvGet m "Pin", no := jsOr (kvGet m "No") "0",
              index := jsOr (kvGet m "Index") "0",
              valid := jsOr (kvGet m "Valid") "1",
              duress := jsOr (kvGet m "Duress") "0",
              type := kvGet m "Type",
              majorVer := jsOr (kvGet m "MajorVer") "0",
              minorVer := jsOr (kvGet m "MinorVer") "0",
              format := jsOr (kvGet m "Format") "ZK",
              template := kvGet m "Tmp" }
          ≠ biodataPayload
            { pin := kvGet m "Pin", no := jsOr (kvGet m "No") "0",
              index := jsOr (kvGet m "Index") "0",
              valid := jsOr (kvGet m "Valid") "1",
              duress := jsOr (kvGet m "Duress") "0",
              type := kvGet m "Type",
              majorVer := jsOr (kvGet m "MajorVer") "0",
              minorVer := jsOr (kvGet m "MinorVer") "0",
              format := jsOr (kvGet m "Format") "0",
              template := kvGet m "Tmp" }) := by
  have hbt : (processBioTemplate wA01A02 "A01" record).1.commands.map
      (fun c => (c.device_serial, c.command_data))
      = [("A02", biodataPayload
            { pin := kvGet m "Pin", no := jsOr (kvGet m "No") "0",
              index := jsOr (kvGet m "Index") "0",
              valid := jsOr (kvGet m "Valid") "1",
              duress := jsOr (kvGet m "Duress") "0",
              type := kvGet m "Type",
              majorVer := jsOr (kvGet m "MajorVer") "0",
              minorVer := jsOr (kvGet m "MinorVer") "0",
              format := jsOr (kvGet m "Format") "ZK",
              template := kvGet m "Tmp" })] := by
    simp only [processBioTemplate]
    rw [hm]
    rw [if_neg (by simp [hpin, htype])]
    rw [syncBiodata_single_peer
        { devices := wA01A02.devices, device_configs := wA01A02.device_configs,
          commands := wA01A02.commands, sync_log := wA01A02.sync_log,
          store := wA01A02.store ++ [{ table := "bio_templates", values := m }],
          seq := wA01A02.seq } m rfl hpin htype htmp hb64]
    rfl
  have hbtdev : (processBioTemplate wA01A02 "A01" record).1.devices
      = wA01A02.devices := processBioTemplate_devices _ _ _
  refine ⟨?_, ?_⟩
  · simp only [processBioData]
    rw [hrecords]
    simp only [List.foldl_cons, List.foldl_nil]
    unfold syncDataToOtherDevices
    rw [show (getAllDevices (processBioTemplate wA01A02 "A01" record).1).filter
          (fun device => device.serial_number ≠ "A01") = [devA02] from by
        unfold getAllDevices
        rw [hbtdev]
        decide]
    simp only [List.foldl_cons, List.foldl_nil]
    rw [show devA02.serial_number = "A02" from rfl]
    rw [createSync_single_biodata _ m record "BIODATA" hop hpin htype htmp hb64]
    rw [hbt]
    rfl
  · intro hf heq
    have hlen := congrArg String.length heq
    rw [hf] at hlen
    simp [biodataPayload, jsOr, String.length_append] at hlen
    have h0 : ("0" : String).length = 1 := rfl
    have hzk : ("ZK" : String).length = 2 := rfl
    omega

/-- Witness for zk_c10_double_enqueue: a BIODATA upload without Format; the
two payloads that reach A02 differ exactly in Format=ZK versus Format=0. -/
theorem zk_c10_witness :
    parseDataRecords "BIODATA Pin=1001 No=3 Index=0 Valid=1 Type=1 Tmp=QUJB"
      = ["BIODATA Pin=1001 No=3 Index=0 Valid=1 Type=1 Tmp=QUJB"]
    ∧ ("DATA UPDATE BIODATA Pin=1001\tNo=3\tIndex=0\tValid=1\tDuress=0\tType=1\tMajorVer=0\tMinorVer=0\tFormat=ZK\tTmp=QUJB" : String)
      ≠ "DATA UPDATE BIODATA Pin=1001\tNo=3\tIndex=0\tValid=1\tDuress=0\tType=1\tMajorVer=0\tMinorVer=0\tFormat=0\tTmp=QUJB" :=
  ⟨by decide,
   (zk_c10_double_enqueue
      "BIODATA Pin=1001 No=3 Index=0 Valid=1 Type=1 Tmp=QUJB"
      "BIODATA Pin=1001 No=3 Index=0 Valid=1 Type=1 Tmp=QUJB" ""
      (parseBiodataRecord
        (strDrop "BIODATA Pin=1001 No=3 Index=0 Valid=1 Type=1 Tmp=QUJB" 8))
      (by decide) rfl (by decide) (by decide) (by decide) (by decide)
      (by decide)).2 (by decide)⟩
